import Mathlib

/-!
# Task-Management-System client: a shallow embedding

The React client of the task dependency manager (`frontend/src`): the REST wrapper
`services/api.js` and the components `TaskItem.js`, `TaskList.js` and
`GraphVisualization.js`.  Component state is passed explicitly, the backend is a
record of response functions, and a handler returns the state it leaves together
with what it threw or which callbacks it called.
-/

namespace TaskManagement

/-! ## JavaScript values -/

/-- A JavaScript value as the client can hold one: the primitives, and the arrays and
plain objects a decoded JSON body is made of.  Numbers are the integers (`num`), the
two infinities and `NaN` (`nan`); the integers that are Numbers are those a double
holds exactly (`IsJsInteger` below).  A string is a sequence of Unicode characters (for
text of the Basic Multilingual Plane these are the code units JavaScript counts); an
object is its list of own properties, the first binding of a key being the one looked
up. -/
inductive JsVal where
  | undefined : JsVal
  | null : JsVal
  | bool (b : Bool) : JsVal
  | num (n : Int) : JsVal
  | infinity (negative : Bool) : JsVal
  | nan : JsVal
  | str (s : String) : JsVal
  | arr (items : List JsVal) : JsVal
  | obj (fields : List (String × JsVal)) : JsVal
  deriving Repr, Inhabited

namespace JsVal

/-- The ToBoolean conversion: `undefined`, `null`, `false`, `0`, `NaN` and `''` are falsy. -/
def truthy : JsVal → Bool
  | undefined => false
  | null => false
  | bool b => b
  | num n => n != 0
  | infinity _ => true
  | nan => false
  | str s => s != ""
  | arr _ => true
  | obj _ => true

/-- The operator `a || b`. -/
def or (a b : JsVal) : JsVal := if a.truthy then a else b

/-- The operator `a && b`. -/
def and (a b : JsVal) : JsVal := if a.truthy then b else a

/-- The operator `a === b`, for operands of which one is a primitive or which sit in two
different slots of a decoded body: two arrays or two objects are then never the same
reference, and `NaN` is equal to nothing. -/
def strictEq : JsVal → JsVal → Bool
  | undefined, undefined => true
  | null, null => true
  | bool a, bool b => a == b
  | num a, num b => a == b
  | infinity a, infinity b => a == b
  | str a, str b => a == b
  | _, _ => false

/-- The property read `v.key` on a value that is neither `null` nor `undefined`: an own
property of an object, `length` of an array or of a string, `undefined` otherwise. -/
def getProp (v : JsVal) (key : String) : JsVal :=
  match v with
  | obj fields => (fields.lookup key).getD undefined
  | arr items => if key == "length" then num items.length else undefined
  | str s => if key == "length" then num s.length else undefined
  | _ => undefined

/-- The element read `v[i]` on a value that is neither `null` nor `undefined`. -/
def getIndex (v : JsVal) (i : Nat) : JsVal :=
  match v with
  | arr items => (items.get? i).getD undefined
  | str s => match s.data.get? i with
    | some c => str (String.mk [c])
    | none => undefined
  | obj fields => (fields.lookup (toString i)).getD undefined
  | _ => undefined

mutual
/-- Whether React can render the value as a child of an element: a plain object is
not a valid child (React throws on it), an array is rendered entry by entry, and any
primitive is accepted. -/
def validChild : JsVal → Bool
  | obj _ => false
  | arr items => validChildren items
  | _ => true
/-- Whether React can render every value of the list as a child. -/
def validChildren : List JsVal → Bool
  | [] => true
  | v :: rest => validChild v && validChildren rest
end

end JsVal

/-- What stops a render or a handler short of its result. -/
inductive Fault where
  /-- A `TypeError`: a call of something that is not a function. -/
  | typeError : Fault
  /-- A comparison that needs a string-to-number conversion, which is not modelled. -/
  | coercion : Fault
  /-- The error React throws on a child that is a plain object. -/
  | invalidChild : Fault
  deriving DecidableEq, Repr

/-! ## Strings and numbers -/

/-- The method `String.prototype.includes(pattern)`: `pattern` occurs in `s`. -/
def includes (s pattern : String) : Bool :=
  s.data.tails.any (fun t => pattern.data.isPrefixOf t)

/-- The call `v?.includes(pattern)` with a string pattern: skipped on `undefined` and
`null`, the substring test on a string, the membership test on an array, and a
`TypeError` on any other value, which has no callable `includes`. -/
def optIncludes (v : JsVal) (pattern : String) : Except Fault JsVal :=
  match v with
  | .undefined => .ok .undefined
  | .null => .ok .undefined
  | .str s => .ok (.bool (includes s pattern))
  | .arr items => .ok (.bool (items.any (fun x => JsVal.strictEq x (.str pattern))))
  | _ => .error .typeError

/-- The number of halvings that bring `n` below `2^53`, counted with fuel. -/
def shiftFor : Nat → Nat → Nat
  | 0, _ => 0
  | fuel + 1, n => if n < 2 ^ 53 then 0 else shiftFor fuel (n / 2) + 1

/-- The Number a natural number is converted to: the nearest double, a tie going to the
even significand; `none` is `Infinity`, from `2^1024` on (written `(2^256)^4`). -/
def toDouble (n : Nat) : Option Nat :=
  let e := shiftFor n n
  let q := n / 2 ^ e
  let r := n % 2 ^ e
  let up := decide (2 ^ e < 2 * r) || (decide (2 * r = 2 ^ e) && decide (q % 2 = 1))
  let d := (if up then q + 1 else q) * 2 ^ e
  if d < (2 ^ 256) ^ 4 then some d else none

/-- Of the two multiples of `10^z` next to `x`, the one that is converted to the Number
`x`; when both are, the closer one, and the one with the even factor when they are
equally close. -/
def bestCandidate (x z : Nat) : Option Nat :=
  let lo := x / 10 ^ z * 10 ^ z
  let hi := lo + 10 ^ z
  let okLo := toDouble lo == some x
  let okHi := toDouble hi == some x
  if okLo && okHi then
    if x - lo < hi - x then some lo
    else if hi - x < x - lo then some hi
    else if (lo / 10 ^ z) % 2 = 0 then some lo else some hi
  else if okLo then some lo
  else if okHi then some hi
  else none

/-- The search for the decimal with the fewest significant digits that is converted to
`x`: multiples of `10^z` are tried for `z` downwards, and `x` itself is left at 0. -/
def shortestDecimalFrom (x : Nat) : Nat → Nat
  | 0 => x
  | z + 1 =>
    match bestCandidate x (z + 1) with
    | some v => v
    | none => shortestDecimalFrom x z

/-- The value `s * 10^(n-k)` of Number::toString for the Number `x`: the decimal with
the fewest significant digits that denotes `x`. -/
def shortestDecimal (x : Nat) : Nat :=
  shortestDecimalFrom x (Nat.toDigits 10 x).length

/-- The exponent notation of Number::toString for `v >= 10^21`: the first significant
digit, a point and the other significant digits if there are any, then `e+` and the
decimal exponent. -/
def exponentForm (v : Nat) : List Char :=
  let digits := Nat.toDigits 10 v
  let mantissa := (digits.reverse.dropWhile (fun c => c == '0')).reverse
  let exponent := Nat.toDigits 10 (digits.length - 1)
  match mantissa with
  | [] => '0' :: 'e' :: '+' :: exponent
  | [d] => d :: 'e' :: '+' :: exponent
  | d :: rest => d :: '.' :: (rest ++ 'e' :: '+' :: exponent)

/-- The method `Number.prototype.toString()` on an integer (Number::toString of
ECMAScript, radix 10): the integer is taken as the Number it is converted to; below
`10^21` the digits of its shortest decimal are printed, from `10^21` on the exponent
notation is used, and `Infinity` is printed for an infinity; a negative number has a
leading `-`. -/
def numToString (n : Int) : String :=
  match toDouble n.natAbs with
  | none => if n < 0 then "-Infinity" else "Infinity"
  | some x =>
    let body :=
      if x < 10 ^ 21 then Nat.toDigits 10 (shortestDecimal x)
      else exponentForm (shortestDecimal x)
    String.mk (if n < 0 then '-' :: body else body)

/-- The code points `parseInt` skips at the start of its argument (WhiteSpace and
LineTerminator of ECMAScript). -/
def isJsWhiteSpace (c : Char) : Bool :=
  [9, 10, 11, 12, 13, 32, 160, 5760, 8232, 8233, 8239, 8287, 12288, 65279].contains c.toNat
    || (8192 ≤ c.toNat && c.toNat ≤ 8202)

/-- The value of a character as a digit of the given radix, if it is one. -/
def digitValue (radix : Nat) (c : Char) : Option Nat :=
  let v :=
    if 48 ≤ c.toNat ∧ c.toNat ≤ 57 then c.toNat - 48
    else if 97 ≤ c.toNat ∧ c.toNat ≤ 122 then c.toNat - 87
    else if 65 ≤ c.toNat ∧ c.toNat ≤ 90 then c.toNat - 55
    else 36
  if v < radix then some v else none

/-- The longest run of digits of the radix at the start of the characters, read as a
number; `none` when the first character is no digit. -/
def parseDigits (radix : Nat) : List Char → Option Nat → Option Nat
  | [], acc => acc
  | c :: cs, acc =>
    match digitValue radix c with
    | some d => parseDigits radix cs (some (acc.getD 0 * radix + d))
    | none => acc

/-- The sign `parseInt` reads: whether it is `-`, and the characters after it. -/
def stripSign : List Char → Bool × List Char
  | '-' :: rest => (true, rest)
  | '+' :: rest => (false, rest)
  | cs => (false, cs)

/-- The radix `parseInt` chooses when none is given: 16 after `0x` or `0X`, which is
skipped, and 10 otherwise. -/
def stripRadix : List Char → Nat × List Char
  | '0' :: 'x' :: rest => (16, rest)
  | '0' :: 'X' :: rest => (16, rest)
  | cs => (10, cs)

/-- The function `parseInt(string)` without a radix: leading white space is skipped, a
sign is read, the radix is chosen, and the longest run of digits is converted to a
Number (rounded to the nearest double, `Infinity` when too large); `NaN` when there is
no digit. -/
def parseInt (s : String) : JsVal :=
  let signed := stripSign (s.data.dropWhile isJsWhiteSpace)
  let digits := stripRadix signed.2
  match parseDigits digits.1 digits.2 none with
  | some v =>
    match toDouble v with
    | some d => .num (if signed.1 then -(d : Int) else (d : Int))
    | none => .infinity signed.1
  | none => .nan

/-! ## Records of the backend -/

/-- A task as the backend serialises it. -/
structure Task where
  id : Int
  title : String
  description : String
  status : String
  dependency_count : Int
  dependent_count : Int
  deriving DecidableEq, Repr

/-- A dependency record: `task` depends on `depends_on`. -/
structure Dependency where
  id : Int
  task : Int
  depends_on : Int
  deriving DecidableEq, Repr

/-! ## `services/api.js` -/

/-- A request handed to the axios instance. -/
structure Request where
  method : String
  url : String
  body : JsVal

/-- The response of the backend to a request. -/
structure AxiosResponse where
  data : JsVal

/-- The error axios rejects with; `response` is absent when no response arrived. -/
structure AxiosError where
  response : Option AxiosResponse

/-- The backend as the client sees it: what each request is answered with. -/
structure Backend where
  getAll : Except AxiosError (List Task)
  update : Int → JsVal → Except AxiosError Task
  delete : Int → Except AxiosError Unit
  getAllDependencies : Except AxiosError (List Dependency)
  send : Request → Except AxiosError AxiosResponse

/-- The expression `error.response?.data`. -/
def AxiosError.responseData (e : AxiosError) : JsVal :=
  match e.response with
  | some r => r.data
  | none => .undefined

namespace taskAPI

/-- The request `api.post('/tasks/$taskId/add_dependency/', { depends_on_id })`. -/
def addDependencyRequest (taskId : Int) (dependsOnId : JsVal) : Request :=
  { method := "POST"
    url := "/tasks/" ++ numToString taskId ++ "/add_dependency/"
    body := .obj [("depends_on_id", dependsOnId)] }

/-- The call `taskAPI.addDependency`: the response on success; on failure it throws the
body of the error response, or a default error object when that is falsy. -/
def addDependency (api : Backend) (taskId : Int) (dependsOnId : JsVal) :
    Except JsVal AxiosResponse :=
  match api.send (addDependencyRequest taskId dependsOnId) with
  | .ok response => .ok response
  | .error error =>
    .error (error.responseData.or (.obj [("error", .str "Failed to add dependency")]))

/-- The request `api.post('/tasks/$taskId/add_dependency/', { depends_on_id })` as
`checkCircular` writes it. -/
def checkCircularRequest (taskId : Int) (dependsOnId : JsVal) : Request :=
  { method := "POST"
    url := "/tasks/" ++ numToString taskId ++ "/add_dependency/"
    body := .obj [("depends_on_id", dependsOnId)] }

/-- The call `taskAPI.checkCircular`: the response on success; on failure it rejects
with the body of the error response, or a default error object when that is falsy. -/
def checkCircular (api : Backend) (taskId : Int) (dependsOnId : JsVal) :
    Except JsVal AxiosResponse :=
  match api.send (checkCircularRequest taskId dependsOnId) with
  | .ok response => .ok response
  | .error error => .error (error.responseData.or (.obj [("error", .str "Check failed")]))

end taskAPI

/-! ## `components/TaskItem.js` -/

namespace TaskItem

/-- The state hooks of a `TaskItem`. -/
structure State where
  showDependencyForm : Bool
  selectedDependency : String
  loading : Bool
  error : JsVal

/-- The state a `TaskItem` is mounted with. -/
def State.initial : State :=
  { showDependencyForm := false, selectedDependency := "", loading := false, error := .null }

/-- The tasks offered by the dependency dropdown:
`allTasks.filter(otherTask => otherTask.id !== task.id)`. -/
def availableTasks (task : Task) (allTasks : List Task) : List Task :=
  allTasks.filter (fun otherTask => otherTask.id != task.id)

/-- The value attribute of the option rendered for `t`: the string of `t.id`. -/
def optionValue (t : Task) : String := numToString t.id

/-- The handler `handleAddDependency`.  `onAddDependency` is the callback of the parent,
given by what it resolves or rejects with; the result is the state left behind and
the calls made to the callback, in order. -/
def handleAddDependency (task : Task) (onAddDependency : Int → JsVal → Except JsVal Unit)
    (s : State) : State × List (Int × JsVal) :=
  if s.selectedDependency == "" then
    ({ s with error := .obj [("error", .str "Please select a task")] }, [])
  else if s.selectedDependency == numToString task.id then
    ({ s with error := .obj [("error", .str "A task cannot depend on itself"),
                              ("path", .arr [.num task.id, .num task.id])] }, [])
  else
    let s := { s with loading := true, error := .null }
    let dependsOnId := parseInt s.selectedDependency
    match onAddDependency task.id dependsOnId with
    | .ok _ =>
      ({ s with showDependencyForm := false, selectedDependency := "", loading := false },
        [(task.id, dependsOnId)])
    | .error err =>
      ({ s with error := err, loading := false }, [(task.id, dependsOnId)])

/-- Which arm of the three-way class choice of `renderErrorMessage` is taken. -/
inductive ErrorKind where
  | circular : ErrorKind
  | selfDependency : ErrorKind
  | generic : ErrorKind
  deriving DecidableEq, Repr

/-- The choice `isCircularError ? _ : isSelfDependency ? _ : _`. -/
def errorKind (isCircularError isSelfDependency : JsVal) : ErrorKind :=
  if isCircularError.truthy then .circular
  else if isSelfDependency.truthy then .selfDependency
  else .generic

/-- The class of the message box for each arm. -/
def boxClass : ErrorKind → String
  | .circular => "mb-2 p-3 rounded-md bg-red-50 border border-red-200"
  | .selfDependency => "mb-2 p-3 rounded-md bg-yellow-50 border border-yellow-200"
  | .generic => "mb-2 p-3 rounded-md bg-red-50 border border-red-200"

/-- The class of the warning icon for each arm. -/
def iconClass : ErrorKind → String
  | .circular => "mt-0.5 text-red-600"
  | .selfDependency => "mt-0.5 text-yellow-600"
  | .generic => "mt-0.5 text-red-600"

/-- The class of the message text for each arm. -/
def textClass : ErrorKind → String
  | .circular => "font-medium text-red-700"
  | .selfDependency => "font-medium text-yellow-700"
  | .generic => "font-medium text-red-700"

/-- The text after the colon of a path entry: the title of the task, or the template
string made of `#` and the id. -/
inductive EntryName where
  | title (s : String) : EntryName
  | hashId (taskId : JsVal) : EntryName

/-- One `React.Fragment` of the path list: the span `Task (taskId): (name)` and whether
the arrow span follows it. -/
structure PathFragment where
  taskId : JsVal
  name : EntryName
  arrow : Bool

/-- A child of the path list, in document order. -/
inductive PathChild where
  | entry (taskId : JsVal) (name : EntryName) : PathChild
  | arrow : PathChild

/-- The children a fragment contributes. -/
def PathFragment.children (f : PathFragment) : List PathChild :=
  if f.arrow then [.entry f.taskId f.name, .arrow] else [.entry f.taskId f.name]

/-- Whether a child of the path list is an arrow span. -/
def PathChild.isArrow : PathChild → Bool
  | .arrow => true
  | .entry _ _ => false

/-- The children of the path list, in document order. -/
def pathChildren (fragments : List PathFragment) : List PathChild :=
  fragments.flatMap PathFragment.children

/-- The expression ``allTasks.find(t => t.id === taskId)?.title || `#${taskId}` ``. -/
def entryName (allTasks : List Task) (taskId : JsVal) : EntryName :=
  match allTasks.find? (fun t => JsVal.strictEq (.num t.id) taskId) with
  | some t => if t.title != "" then .title t.title else .hashId taskId
  | none => .hashId taskId

/-- The fragments of `error.path.map((taskId, index) => ...)` on an array, as the
elements are created; whether React can render their children is checked in
`renderErrorMessage`. -/
def pathFragments (allTasks : List Task) (path : List JsVal) : List PathFragment :=
  path.enum.map (fun p =>
    { taskId := p.2, name := entryName allTasks p.2, arrow := decide (p.1 < path.length - 1) })

/-- The comparison `v > 0` on a number, a boolean, `null` or `undefined`; `none` on a
string, an array or an object, whose conversion to a number is not modelled. -/
def gtZero : JsVal → Option Bool
  | .num n => some (decide (0 < n))
  | .infinity negative => some (!negative)
  | .bool b => some b
  | .nan => some false
  | .null => some false
  | .undefined => some false
  | _ => none

/-- The block `error.path && error.path.length > 0 && (...)`: the fragments when it is
rendered, `none` when the condition is falsy.  A truthy `path` that is no array
and has a positive `length` has no callable `map`. -/
def pathBlock (allTasks : List Task) (path : JsVal) : Except Fault (Option (List PathFragment)) :=
  if !path.truthy then .ok none
  else
    match path with
    | .arr items => if 0 < items.length then .ok (some (pathFragments allTasks items)) else .ok none
    | _ =>
      match gtZero (path.getProp "length") with
      | some true => .error .typeError
      | some false => .ok none
      | none => .error .coercion

/-- What `renderErrorMessage` returns for a truthy error. -/
structure ErrorView where
  isCircularError : JsVal
  isSelfDependency : JsVal
  kind : ErrorKind
  boxClass : String
  iconClass : String
  textClass : String
  message : JsVal
  path : Option (List PathFragment)

/-- The constant
`error.error?.includes('Circular') || error.error?.includes('circular')`. -/
def isCircularError (error : JsVal) : Except Fault JsVal :=
  match optIncludes (error.getProp "error") "Circular" with
  | .error fault => .error fault
  | .ok upper =>
    if upper.truthy then .ok upper else optIncludes (error.getProp "error") "circular"

/-- The constant
`error.error?.includes('itself') || (error.path && error.path[0] === error.path[1])`. -/
def isSelfDependency (error : JsVal) : Except Fault JsVal :=
  match optIncludes (error.getProp "error") "itself" with
  | .error fault => .error fault
  | .ok itself =>
    if itself.truthy then .ok itself
    else
      .ok ((error.getProp "path").and
        (.bool (JsVal.strictEq ((error.getProp "path").getIndex 0)
          ((error.getProp "path").getIndex 1))))

/-- The function `renderErrorMessage` and the rendering of what it returns: `none` is
the `null` returned when there is no error; the first fault met in the evaluation ends
the render, and so does, once the element is returned, a child React cannot render:
the message `error.error || 'Failed to add dependency'` or an entry `taskId` of the
path list. -/
def renderErrorMessage (allTasks : List Task) (error : JsVal) :
    Except Fault (Option ErrorView) :=
  if !error.truthy then .ok none
  else
    match isCircularError error, isSelfDependency error,
        pathBlock allTasks (error.getProp "path") with
    | .error fault, _, _ => .error fault
    | .ok _, .error fault, _ => .error fault
    | .ok _, .ok _, .error fault => .error fault
    | .ok circular, .ok self, .ok path =>
      if !((error.getProp "error").or (.str "Failed to add dependency")).validChild then
        .error .invalidChild
      else if !((path.getD []).all (fun fragment => fragment.taskId.validChild)) then
        .error .invalidChild
      else .ok (some
        { isCircularError := circular
          isSelfDependency := self
          kind := errorKind circular self
          boxClass := boxClass (errorKind circular self)
          iconClass := iconClass (errorKind circular self)
          textClass := textClass (errorKind circular self)
          message := (error.getProp "error").or (.str "Failed to add dependency")
          path := path })

/-- The handler `handleStatusChange`: the callback of the parent runs on the state of
the parent, and a rejection is caught and logged. -/
def handleStatusChange {σ : Type} (task : Task)
    (onUpdate : Int → JsVal → σ → σ × Except AxiosError Unit) (newStatus : String)
    (parent : σ) : σ × List String :=
  match onUpdate task.id (.obj [("status", .str newStatus)]) parent with
  | (parent, .ok _) => (parent, [])
  | (parent, .error _) => (parent, ["Failed to update status:"])

/-- The delete button: `onDelete(task.id)` runs when the confirmation is accepted. -/
def deleteClicked {σ : Type} (task : Task) (confirmed : Bool) (onDelete : Int → σ → σ)
    (parent : σ) : σ :=
  if confirmed then onDelete task.id parent else parent

end TaskItem

/-! ## `components/TaskList.js` -/

namespace TaskList

/-- The state hooks of `TaskList`. -/
structure State where
  tasks : List Task
  loading : Bool
  error : String
  showCreateForm : Bool

/-- The state `TaskList` is mounted with. -/
def State.initial : State :=
  { tasks := [], loading := true, error := "", showCreateForm := false }

/-- The function `fetchTasks`, run to completion. -/
def fetchTasks (api : Backend) (s : State) : State :=
  let s := { s with loading := true }
  match api.getAll with
  | .ok data => { s with tasks := data, error := "", loading := false }
  | .error _ => { s with error := "Failed to fetch tasks", loading := false }

/-- The handler `handleTaskCreated`. -/
def handleTaskCreated (newTask : Task) (s : State) : State :=
  { s with tasks := newTask :: s.tasks, showCreateForm := false }

/-- The handler `handleTaskUpdate`: the state left behind, and the error rethrown when
the request fails. -/
def handleTaskUpdate (api : Backend) (taskId : Int) (updateData : JsVal) (s : State) :
    State × Except AxiosError Unit :=
  match api.update taskId updateData with
  | .ok data =>
    ({ s with tasks := s.tasks.map (fun task => if task.id == taskId then data else task) },
      .ok ())
  | .error err => (s, .error err)

/-- The handler `handleTaskDelete`: the state left behind and the alerts shown. -/
def handleTaskDelete (api : Backend) (taskId : Int) (s : State) : State × List String :=
  match api.delete taskId with
  | .ok _ => ({ s with tasks := s.tasks.filter (fun task => task.id != taskId) }, [])
  | .error _ => (s, ["Failed to delete task. Make sure no tasks depend on it."])

/-- The handler `handleAddDependency`: on success the tasks are fetched again; on
failure the error of `taskAPI.addDependency` is rethrown. -/
def handleAddDependency (api : Backend) (taskId : Int) (dependsOnId : JsVal) (s : State) :
    State × Except JsVal Unit :=
  match taskAPI.addDependency api taskId dependsOnId with
  | .ok _ => (fetchTasks api s, .ok ())
  | .error err => (s, .error err)

/-- The `TaskItem` of `task` as `TaskList` renders it, with
`onAddDependency={handleAddDependency}`: the state of the item after its own
`handleAddDependency`. -/
def itemHandleAddDependency (api : Backend) (s : State) (task : Task)
    (item : TaskItem.State) : TaskItem.State :=
  (TaskItem.handleAddDependency task
    (fun taskId dependsOnId => (handleAddDependency api taskId dependsOnId s).2) item).1

end TaskList

/-! ## `components/GraphVisualization.js` -/

namespace GraphVisualization

/-- The state hooks of `GraphVisualization` (the zoom factor apart); `selectedNode` is
`null` or the id of the node clicked last. -/
structure State where
  tasks : List Task
  dependencies : List Dependency
  loading : Bool
  selectedNode : Option Int

/-- The state `GraphVisualization` is mounted with. -/
def State.initial : State :=
  { tasks := [], dependencies := [], loading := true, selectedNode := none }

/-- The function `fetchData`: both lists are set when both requests succeed. -/
def fetchData (api : Backend) (s : State) : State :=
  match api.getAll, api.getAllDependencies with
  | .ok tasks, .ok deps => { s with tasks := tasks, dependencies := deps, loading := false }
  | _, _ => { s with loading := false }

/-- The click on the node of a task: `setSelectedNode(task.id)`. -/
def nodeClicked (task : Task) (s : State) : State :=
  { s with selectedNode := some task.id }

/-- The function `getNodePosition(index, total)`; `clientWidth` is the width of the
container when it is mounted. -/
def getNodePosition (clientWidth : Option Nat) (index _total : Nat) : Nat × Nat :=
  let containerWidth :=
    match clientWidth with
    | some w => if w = 0 then 800 else w
    | none => 800
  let nodesPerRow := min 5 (max 3 (containerWidth / 180))
  let row := index / nodesPerRow
  let col := index % nodesPerRow
  (100 + col * 180, 100 + row * 140)

/-- The call `status.replace('_', ' ')` on characters: the first underscore becomes a
space. -/
def replaceUnderscore : List Char → List Char
  | [] => []
  | c :: cs => if c = '_' then ' ' :: cs else c :: replaceUnderscore cs

/-- A line of the `Depends On` or `Dependent Tasks` list: the key of the element, the
title of the task found for the id (if any) and the id shown. -/
structure DepRow where
  key : Int
  title : Option String
  shownId : Int
  deriving DecidableEq, Repr

/-- The details panel of the selected node. -/
structure DetailsPanel where
  title : String
  status : String
  dependencies : Nat
  dependents : Nat
  dependsOn : Option (List DepRow)
  dependentTasks : Option (List DepRow)
  deriving DecidableEq, Repr

/-- The block `selectedNode && (() => ...)()`: `none` when nothing is rendered, which
is when `selectedNode` is falsy (`null` or `0`) or no task has that id. -/
def detailsPanel (s : State) : Option DetailsPanel :=
  match s.selectedNode with
  | none => none
  | some selectedNode =>
    if selectedNode = 0 then none
    else
      match s.tasks.find? (fun t => t.id == selectedNode) with
      | none => none
      | some task =>
        let taskDeps := s.dependencies.filter (fun d => d.task == task.id)
        let taskDependents := s.dependencies.filter (fun d => d.depends_on == task.id)
        some
          { title := task.title
            status := String.mk (replaceUnderscore task.status.data)
            dependencies := taskDeps.length
            dependents := taskDependents.length
            dependsOn :=
              if 0 < taskDeps.length then
                some (taskDeps.map (fun dep =>
                  { key := dep.id
                    title := (s.tasks.find? (fun t => t.id == dep.depends_on)).map (·.title)
                    shownId := dep.depends_on }))
              else none
            dependentTasks :=
              if 0 < taskDependents.length then
                some (taskDependents.map (fun dep =>
                  { key := dep.id
                    title := (s.tasks.find? (fun t => t.id == dep.task)).map (·.title)
                    shownId := dep.task }))
              else none }

/-- The geometry of a dependency line up to the square root: the two node positions,
`dx`, `dy` and the radicand `dx * dx + dy * dy` of `distance`. -/
structure EdgeGeometry where
  fromPos : Nat × Nat
  toPos : Nat × Nat
  dx : Int
  dy : Int
  distanceSquared : Int
  deriving DecidableEq, Repr

/-- The start of the callback of `dependencies.map`: `none` is the `null` returned when
`findIndex` gives `-1` for an endpoint. -/
def edgeGeometry (clientWidth : Option Nat) (tasks : List Task) (dep : Dependency) :
    Option EdgeGeometry :=
  match tasks.findIdx? (fun t => t.id == dep.task),
      tasks.findIdx? (fun t => t.id == dep.depends_on) with
  | some fromIndex, some toIndex =>
    let fromPos := getNodePosition clientWidth fromIndex tasks.length
    let toPos := getNodePosition clientWidth toIndex tasks.length
    let dx : Int := (toPos.1 : Int) - (fromPos.1 : Int)
    let dy : Int := (toPos.2 : Int) - (fromPos.2 : Int)
    some { fromPos := fromPos, toPos := toPos, dx := dx, dy := dy,
           distanceSquared := dx * dx + dy * dy }
  | _, _ => none

end GraphVisualization

/-! ## `App.js` -/

namespace App

/-- The state of the page: `App` renders `TaskList` and `GraphVisualization` side by
side and passes neither of them a prop, so each keeps its own hooks. -/
structure State where
  taskList : TaskList.State
  graph : GraphVisualization.State

/-- The page once both components are mounted and their first fetch is done. -/
def mount (api : Backend) : State :=
  { taskList := TaskList.fetchTasks api TaskList.State.initial
    graph := GraphVisualization.fetchData api GraphVisualization.State.initial }

/-- A handler of `TaskList` running on the page: it sets hooks of `TaskList` only. -/
def onTaskList (handler : TaskList.State → TaskList.State) (s : State) : State :=
  { s with taskList := handler s.taskList }

/-- The Refresh button of the graph: `fetchData`. -/
def refreshClicked (api : Backend) (s : State) : State :=
  { s with graph := GraphVisualization.fetchData api s.graph }

end App

/-! ## The cycle check of the backend -/

/-- Modelled from the spec: the cycle check of the backend (CycleDetector, spec 4.3),
whose code is not among the client sources.  `dependsOnWithin fuel edges v u` holds
when `v` reaches `u` along at most `fuel` existing edges, each followed from its
`task` to its `depends_on`. -/
def dependsOnWithin : Nat → List Dependency → Int → Int → Bool
  | 0, _, _, _ => false
  | fuel + 1, edges, v, u =>
    edges.any (fun e =>
      e.task == v && (e.depends_on == u || dependsOnWithin fuel edges e.depends_on u))

/-- Modelled from the spec: the cycle check of the backend (spec 4.3), whose code is not
among the client sources.  The proposed edge `u -> v` (`u` depends on `v`) closes a
cycle when `v` can already reach `u` via existing edges; a path without a repeated
edge has at most `edges.length` edges. -/
def wouldCreateCycle (edges : List Dependency) (u v : Int) : Bool :=
  dependsOnWithin edges.length edges v u

/-! ## Auxiliary notions -/

/-- A backend that answers every request with an error response carrying `body`. -/
def rejectingBackend (body : JsVal) : Backend :=
  { getAll := .error ⟨some ⟨body⟩⟩
    update := fun _ _ => .error ⟨some ⟨body⟩⟩
    delete := fun _ => .error ⟨some ⟨body⟩⟩
    getAllDependencies := .error ⟨some ⟨body⟩⟩
    send := fun _ => .error ⟨some ⟨body⟩⟩ }

/-- A backend that serves the given tasks and dependencies and accepts every change. -/
def servingBackend (tasks : List Task) (dependencies : List Dependency) : Backend :=
  { getAll := .ok tasks
    update := fun taskId _ =>
      match tasks.find? (fun t => t.id == taskId) with
      | some t => .ok t
      | none => .error ⟨none⟩
    delete := fun _ => .ok ()
    getAllDependencies := .ok dependencies
    send := fun _ => .ok ⟨.null⟩ }

/-- A backend in the state of the blocked-task scenario once task 6 is completed: an
update is answered with the task completed, and the task list it serves shows
task 5 as no longer blocked. -/
def scenarioBackend : Backend :=
  { getAll := .ok
      [{ id := 5, title := "Release", description := "", status := "pending",
         dependency_count := 1, dependent_count := 0 },
       { id := 6, title := "Review", description := "", status := "completed",
         dependency_count := 0, dependent_count := 1 }]
    update := fun taskId _ =>
      .ok { id := taskId, title := "Review", description := "", status := "completed",
            dependency_count := 0, dependent_count := 1 }
    delete := fun _ => .ok ()
    getAllDependencies := .ok [{ id := 1, task := 5, depends_on := 6 }]
    send := fun _ => .ok ⟨.null⟩ }

/-- The task list of the blocked-task scenario: task 5, blocked, depends on task 6,
pending. -/
def scenarioTasks : TaskList.State :=
  { tasks :=
      [{ id := 5, title := "Release", description := "", status := "blocked",
         dependency_count := 1, dependent_count := 0 },
       { id := 6, title := "Review", description := "", status := "pending",
         dependency_count := 0, dependent_count := 1 }]
    loading := false
    error := ""
    showCreateForm := false }

/-- A graph whose selected node is the task with id 0, which has one dependency. -/
def zeroIdGraph : GraphVisualization.State :=
  { tasks :=
      [{ id := 0, title := "Root", description := "", status := "pending",
         dependency_count := 1, dependent_count := 0 },
       { id := 1, title := "Leaf", description := "", status := "pending",
         dependency_count := 0, dependent_count := 1 }]
    dependencies := [{ id := 1, task := 0, depends_on := 1 }]
    loading := false
    selectedNode := some 0 }

/-- A task with the given id, title and status and nothing else. -/
def mkTask (id : Int) (title status : String) : Task :=
  { id := id, title := title, description := "", status := status,
    dependency_count := 0, dependent_count := 0 }

/-- A decimal digit character. -/
def IsDecDigit (c : Char) : Prop := ∃ k, k < 10 ∧ c = Nat.digitChar k

/-- An integer that is a Number: a double holds it exactly. -/
def IsJsInteger (n : Int) : Prop := toDouble n.natAbs = some n.natAbs

instance (n : Int) : Decidable (IsJsInteger n) :=
  inferInstanceAs (Decidable (toDouble n.natAbs = some n.natAbs))

/-! ## Numbers and their strings: `parseInt` after `toString` -/

theorem digitChar_props (k : Nat) (hk : k < 10) :
    digitValue 10 (Nat.digitChar k) = some k ∧ isJsWhiteSpace (Nat.digitChar k) = false ∧
    Nat.digitChar k ≠ '-' ∧ Nat.digitChar k ≠ '+' ∧ Nat.digitChar k ≠ 'x' ∧
    Nat.digitChar k ≠ 'X' ∧ Nat.digitChar k ≠ 'e' := by
  interval_cases k <;> decide

theorem toDigitsCore_append (fuel : Nat) : ∀ (n : Nat) (ds : List Char),
    Nat.toDigitsCore 10 fuel n ds = Nat.toDigitsCore 10 fuel n [] ++ ds := by
  induction fuel with
  | zero => intro n ds; simp [Nat.toDigitsCore]
  | succ fuel ih =>
    intro n ds
    simp only [Nat.toDigitsCore]
    split
    · simp
    · rw [ih (n / 10) (Nat.digitChar (n % 10) :: ds), ih (n / 10) [Nat.digitChar (n % 10)]]
      simp

theorem parseDigits_toDigitsCore (fuel : Nat) : ∀ (n : Nat), n < fuel → ∀ (ys : List Char),
    parseDigits 10 (Nat.toDigitsCore 10 fuel n [] ++ ys) none = parseDigits 10 ys (some n) := by
  induction fuel with
  | zero => intro n h; omega
  | succ fuel ih =>
    intro n hn ys
    have hd := (digitChar_props (n % 10) (Nat.mod_lt _ (by norm_num))).1
    simp only [Nat.toDigitsCore]
    split
    · rename_i h0
      simp only [List.singleton_append, parseDigits, hd, Option.getD_none]
      congr 2
      omega
    · rename_i h0
      rw [toDigitsCore_append fuel (n / 10) [Nat.digitChar (n % 10)], List.append_assoc,
        ih (n / 10) (by omega)]
      simp only [List.singleton_append, parseDigits, hd, Option.getD_some]
      congr 2
      omega

theorem toDigitsCore_isDecDigit (fuel : Nat) : ∀ (n : Nat) (c : Char),
    c ∈ Nat.toDigitsCore 10 fuel n [] → IsDecDigit c := by
  induction fuel with
  | zero => intro n c h; simp [Nat.toDigitsCore] at h
  | succ fuel ih =>
    intro n c h
    simp only [Nat.toDigitsCore] at h
    split at h
    · simp only [List.mem_singleton] at h
      exact ⟨n % 10, Nat.mod_lt _ (by norm_num), h⟩
    · rw [toDigitsCore_append, List.mem_append, List.mem_singleton] at h
      rcases h with h | h
      · exact ih _ _ h
      · exact ⟨n % 10, Nat.mod_lt _ (by norm_num), h⟩

theorem toDigits_isDecDigit (n : Nat) (c : Char) (h : c ∈ Nat.toDigits 10 n) :
    IsDecDigit c :=
  toDigitsCore_isDecDigit (n + 1) n c h

theorem parseDigits_toDigits (n : Nat) : parseDigits 10 (Nat.toDigits 10 n) none = some n := by
  have h := parseDigits_toDigitsCore (n + 1) n (Nat.lt_succ_self n) []
  simpa [Nat.toDigits, parseDigits] using h

theorem stripSign_of_digit (c : Char) (rest : List Char) (hc : IsDecDigit c) :
    stripSign (c :: rest) = (false, c :: rest) := by
  obtain ⟨k, hk, rfl⟩ := hc
  have hp := digitChar_props k hk
  unfold stripSign
  split
  · rename_i h; simp only [List.cons.injEq] at h; exact absurd h.1 hp.2.2.1
  · rename_i h; simp only [List.cons.injEq] at h; exact absurd h.1 hp.2.2.2.1
  · rfl

theorem stripRadix_of_digits (cs : List Char) (hcs : ∀ c ∈ cs, IsDecDigit c) :
    stripRadix cs = (10, cs) := by
  unfold stripRadix
  split
  · rename_i rest
    obtain ⟨k, hk, h⟩ := hcs 'x' (by simp)
    exact absurd h.symm (digitChar_props k hk).2.2.2.2.1
  · rename_i rest
    obtain ⟨k, hk, h⟩ := hcs 'X' (by simp)
    exact absurd h.symm (digitChar_props k hk).2.2.2.2.2.1
  · rfl

theorem toDigits_eq_cons (n : Nat) :
    ∃ c rest, Nat.toDigits 10 n = c :: rest ∧ IsDecDigit c := by
  have hp := parseDigits_toDigits n
  cases h : Nat.toDigits 10 n with
  | nil => rw [h] at hp; simp [parseDigits] at hp
  | cons c rest => exact ⟨c, rest, rfl, toDigits_isDecDigit n c (by rw [h]; simp)⟩

theorem bestCandidate_toDouble (x z v : Nat) (h : bestCandidate x z = some v) :
    toDouble v = some x := by
  unfold bestCandidate at h
  simp only [Bool.and_eq_true, beq_iff_eq] at h
  split at h
  · rename_i hboth
    split at h
    · cases h; exact hboth.1
    · split at h
      · cases h; exact hboth.2
      · split at h
        · cases h; exact hboth.1
        · cases h; exact hboth.2
  · split at h
    · rename_i hlo; cases h; exact hlo
    · split at h
      · rename_i hhi; cases h; exact hhi
      · cases h

theorem shortestDecimalFrom_toDouble (x : Nat) (hx : toDouble x = some x) :
    ∀ z, toDouble (shortestDecimalFrom x z) = some x := by
  intro z
  induction z with
  | zero => exact hx
  | succ z ih =>
    unfold shortestDecimalFrom
    cases hb : bestCandidate x (z + 1) with
    | none => exact ih
    | some v => exact bestCandidate_toDouble x (z + 1) v hb

theorem shortestDecimal_toDouble (x : Nat) (hx : toDouble x = some x) :
    toDouble (shortestDecimal x) = some x :=
  shortestDecimalFrom_toDouble x hx _

theorem exponentForm_mem_e (v : Nat) : 'e' ∈ exponentForm v := by
  unfold exponentForm
  simp only
  split <;> simp

theorem exponentForm_ne_nil (v : Nat) : exponentForm v ≠ [] := by
  intro h
  have := exponentForm_mem_e v
  rw [h] at this
  simp at this

theorem numToString_ne_empty (n : Int) : numToString n ≠ "" := by
  unfold numToString
  cases toDouble n.natAbs with
  | none =>
    simp only
    split <;> decide
  | some x =>
    simp only
    intro h
    have hdata := congrArg String.data h
    simp only at hdata
    split at hdata
    · simp at hdata
    · split at hdata
      · obtain ⟨c, rest, hc, -⟩ := toDigits_eq_cons (shortestDecimal x)
        rw [hc] at hdata
        simp at hdata
      · exact exponentForm_ne_nil _ hdata

theorem numToString_of_lt (n : Int) (hn : IsJsInteger n) (hlt : n.natAbs < 10 ^ 21) :
    ∃ v, toDouble v = some n.natAbs ∧
      numToString n
        = String.mk (if n < 0 then '-' :: Nat.toDigits 10 v else Nat.toDigits 10 v) := by
  refine ⟨shortestDecimal n.natAbs, shortestDecimal_toDouble _ hn, ?_⟩
  unfold numToString
  rw [hn]
  simp only [hlt, if_true]

theorem numToString_of_ge (n : Int) (hn : IsJsInteger n) (hge : 10 ^ 21 ≤ n.natAbs) :
    'e' ∈ (numToString n).data := by
  unfold numToString
  rw [hn]
  have hnot : ¬ n.natAbs < 10 ^ 21 := by omega
  simp only [hnot, if_false]
  split
  · exact List.mem_cons_of_mem _ (exponentForm_mem_e _)
  · exact exponentForm_mem_e _

theorem parseInt_digits (neg : Bool) (v d : Nat) (hd : toDouble v = some d) :
    parseInt (String.mk (if neg = true then '-' :: Nat.toDigits 10 v else Nat.toDigits 10 v))
      = .num (if neg = true then -(d : Int) else (d : Int)) := by
  obtain ⟨c, rest, hL, hc⟩ := toDigits_eq_cons v
  have hall : ∀ c ∈ Nat.toDigits 10 v, IsDecDigit c := toDigits_isDecDigit v
  have hrad := stripRadix_of_digits _ hall
  have hws : isJsWhiteSpace c = false := by
    obtain ⟨k, hk, rfl⟩ := hc
    exact (digitChar_props k hk).2.1
  have hval := parseDigits_toDigits v
  unfold parseInt
  cases neg with
  | true =>
    have hminus : isJsWhiteSpace '-' = false := by decide
    simp only [if_true, List.dropWhile_cons, hminus, stripSign]
    simp only [Bool.false_eq_true, if_false, hrad, hval, hd, if_true]
  | false =>
    simp only [Bool.false_eq_true, if_false, hL, List.dropWhile_cons, hws]
    rw [stripSign_of_digit c rest hc, ← hL]
    simp only [hrad, hval, hd, Bool.false_eq_true, if_false]

theorem parseInt_numToString (n : Int) (hn : IsJsInteger n) (hlt : n.natAbs < 10 ^ 21) :
    parseInt (numToString n) = .num n := by
  obtain ⟨v, hv, hs⟩ := numToString_of_lt n hn hlt
  rw [hs]
  by_cases hneg : n < 0
  · have := parseInt_digits true v n.natAbs hv
    simp only [if_true] at this
    simp only [hneg, if_true, this]
    congr 1
    omega
  · have := parseInt_digits false v n.natAbs hv
    simp only [Bool.false_eq_true, if_false] at this
    simp only [hneg, if_false, this]
    congr 1
    omega

theorem numToString_no_e (n : Int) (hn : IsJsInteger n) (hlt : n.natAbs < 10 ^ 21) :
    'e' ∉ (numToString n).data := by
  obtain ⟨v, -, hs⟩ := numToString_of_lt n hn hlt
  rw [hs]
  have hdigit : 'e' ∉ Nat.toDigits 10 v := by
    intro hmem
    obtain ⟨k, hk, hek⟩ := toDigits_isDecDigit v 'e' hmem
    exact (digitChar_props k hk).2.2.2.2.2.2 hek.symm
  split
  · simp only [List.mem_cons, not_or]
    exact ⟨by decide, hdigit⟩
  · exact hdigit

theorem numToString_injective (a b : Int) (ha : IsJsInteger a) (hb : IsJsInteger b)
    (hlt : a.natAbs < 10 ^ 21) (h : numToString a = numToString b) : a = b := by
  by_cases hblt : b.natAbs < 10 ^ 21
  · have := congrArg parseInt h
    rw [parseInt_numToString a ha hlt, parseInt_numToString b hb hblt] at this
    injection this
  · exfalso
    have hmem := numToString_of_ge b hb (by omega)
    rw [← h] at hmem
    exact numToString_no_e a ha hlt hmem

theorem TaskItem.render_selfDependency (allTasks : List Task) (id : Int) :
    TaskItem.renderErrorMessage allTasks
        (.obj [("error", .str "A task cannot depend on itself"),
               ("path", .arr [.num id, .num id])]) =
      .ok (some
        { isCircularError := .bool false
          isSelfDependency := .bool true
          kind := .selfDependency
          boxClass := "mb-2 p-3 rounded-md bg-yellow-50 border border-yellow-200"
          iconClass := "mt-0.5 text-yellow-600"
          textClass := "font-medium text-yellow-700"
          message := .str "A task cannot depend on itself"
          path := some (TaskItem.pathFragments allTasks [.num id, .num id]) }) := by
  rfl

/-- C1: when the selected dependency value is `T.id.toString()`, `handleAddDependency`
never calls `onAddDependency`, sets the error to
`{error: 'A task cannot depend on itself', path: [T.id, T.id]}`, and
`renderErrorMessage` finds that error a self-dependency (`isSelfDependency` true) and
not circular (`isCircularError` false). -/
theorem selfDependency_fails_locally (T : Task)
    (onAddDependency : Int → JsVal → Except JsVal Unit) (s : TaskItem.State)
    (allTasks : List Task) (h : s.selectedDependency = numToString T.id) :
    (TaskItem.handleAddDependency T onAddDependency s).2 = [] ∧
    (TaskItem.handleAddDependency T onAddDependency s).1.error =
      .obj [("error", .str "A task cannot depend on itself"),
            ("path", .arr [.num T.id, .num T.id])] ∧
    ∃ v, TaskItem.renderErrorMessage allTasks
          (TaskItem.handleAddDependency T onAddDependency s).1.error = .ok (some v) ∧
      v.isSelfDependency = .bool true ∧ v.isCircularError = .bool false ∧
      v.kind = .selfDependency := by
  have hne : (s.selectedDependency == "") = false := by
    rw [h]; simpa using numToString_ne_empty T.id
  have heq : (s.selectedDependency == numToString T.id) = true := by simp [h]
  have hstate : TaskItem.handleAddDependency T onAddDependency s =
      ({ s with error := .obj [("error", .str "A task cannot depend on itself"),
                                ("path", .arr [.num T.id, .num T.id])] }, []) := by
    unfold TaskItem.handleAddDependency
    simp only [hne, heq, if_true, Bool.false_eq_true, if_false]
  rw [hstate]
  exact ⟨rfl, rfl, _, TaskItem.render_selfDependency allTasks T.id, rfl, rfl, rfl⟩

/-- C1, at a concrete input: task 7 with `'7'` selected. -/
theorem selfDependency_fails_locally_witness :
    "7" = numToString 7 ∧
    (TaskItem.handleAddDependency (mkTask 7 "Deploy" "pending") (fun _ _ => .ok ())
        { TaskItem.State.initial with selectedDependency := "7" }).2 = [] ∧
    (TaskItem.handleAddDependency (mkTask 7 "Deploy" "pending") (fun _ _ => .ok ())
        { TaskItem.State.initial with selectedDependency := "7" }).1.error =
      .obj [("error", .str "A task cannot depend on itself"),
            ("path", .arr [.num 7, .num 7])] ∧
    ∃ v, TaskItem.renderErrorMessage []
        (TaskItem.handleAddDependency (mkTask 7 "Deploy" "pending") (fun _ _ => .ok ())
          { TaskItem.State.initial with selectedDependency := "7" }).1.error
        = .ok (some v) ∧
      v.isSelfDependency = .bool true ∧ v.isCircularError = .bool false ∧
      v.kind = .selfDependency :=
  ⟨by decide,
    selfDependency_fails_locally (mkTask 7 "Deploy" "pending") (fun _ _ => .ok ())
      { TaskItem.State.initial with selectedDependency := "7" } [] (by decide)⟩

theorem TaskItem.mem_availableTasks (T t : Task) (allTasks : List Task) :
    t ∈ TaskItem.availableTasks T allTasks ↔ t ∈ allTasks ∧ t.id ≠ T.id := by
  simp [TaskItem.availableTasks]

theorem TaskItem.handleAddDependency_request (T : Task)
    (onAddDependency : Int → JsVal → Except JsVal Unit) (s : TaskItem.State)
    (h1 : s.selectedDependency ≠ "") (h2 : s.selectedDependency ≠ numToString T.id) :
    TaskItem.handleAddDependency T onAddDependency s =
      match onAddDependency T.id (parseInt s.selectedDependency) with
      | .ok _ =>
        ({ s with showDependencyForm := false, selectedDependency := "", loading := false,
                  error := .null },
          [(T.id, parseInt s.selectedDependency)])
      | .error err =>
        ({ s with error := err, loading := false }, [(T.id, parseInt s.selectedDependency)]) := by
  have hne : (s.selectedDependency == "") = false := by simpa using h1
  have hne2 : (s.selectedDependency == numToString T.id) = false := by simpa using h2
  unfold TaskItem.handleAddDependency
  simp only [hne, hne2, Bool.false_eq_true, if_false]

/-- C2, as stated, fails on an integer id from `10^21` on: for task 1 and the offered
task of id `10^21`, which is a Number, the option value is `'1e+21'`, `parseInt` reads
1 from it, and `handleAddDependency` calls `onAddDependency(1, 1)`. -/
theorem exponent_id_option_sends_own_task :
    IsJsInteger 1000000000000000000000 ∧
    mkTask 1000000000000000000000 "Archive" "pending" ∈
      TaskItem.availableTasks (mkTask 1 "Build" "pending")
        [mkTask 1 "Build" "pending", mkTask 1000000000000000000000 "Archive" "pending"] ∧
    TaskItem.optionValue (mkTask 1000000000000000000000 "Archive" "pending") = "1e+21" ∧
    parseInt "1e+21" = .num 1 ∧
    (TaskItem.handleAddDependency (mkTask 1 "Build" "pending") (fun _ _ => .ok ())
        { TaskItem.State.initial with selectedDependency := "1e+21" }).2 = [(1, .num 1)] :=
  ⟨by decide, by decide, by decide, rfl, rfl⟩

/-- C2, amended: for every task `T` and task list whose ids are integers that are
Numbers, and for every option the dropdown offers for a task `t` of `availableTasks`
whose id is below `10^21` in magnitude (its value is then the decimal string of
`t.id`), `handleAddDependency` calls `onAddDependency(T.id, parseInt(String(t.id)))`
exactly once, the second argument is `t.id`, and it differs from `T.id`: no request
with `task == depends_on` is sent for such an option. -/
theorem offered_option_sends_other_task (T t : Task) (allTasks : List Task)
    (onAddDependency : Int → JsVal → Except JsVal Unit) (s : TaskItem.State)
    (hT : IsJsInteger T.id) (ht : IsJsInteger t.id) (hlt : t.id.natAbs < 10 ^ 21)
    (hmem : t ∈ TaskItem.availableTasks T allTasks)
    (hsel : s.selectedDependency = TaskItem.optionValue t) :
    (TaskItem.handleAddDependency T onAddDependency s).2
      = [(T.id, parseInt (TaskItem.optionValue t))] ∧
    parseInt (TaskItem.optionValue t) = .num t.id ∧ t.id ≠ T.id ∧
    ∀ call ∈ (TaskItem.handleAddDependency T onAddDependency s).2, call.2 ≠ .num call.1 := by
  have hid : t.id ≠ T.id := ((TaskItem.mem_availableTasks T t allTasks).1 hmem).2
  have h1 : s.selectedDependency ≠ "" := by
    rw [hsel]; exact numToString_ne_empty t.id
  have h2 : s.selectedDependency ≠ numToString T.id := by
    rw [hsel]; intro h; exact hid (numToString_injective _ _ ht hT hlt h)
  have hparse : parseInt (TaskItem.optionValue t) = .num t.id :=
    parseInt_numToString t.id ht hlt
  have hcalls : (TaskItem.handleAddDependency T onAddDependency s).2
      = [(T.id, parseInt (TaskItem.optionValue t))] := by
    rw [TaskItem.handleAddDependency_request T onAddDependency s h1 h2, hsel]
    cases onAddDependency T.id (parseInt (TaskItem.optionValue t)) <;> rfl
  refine ⟨hcalls, hparse, hid, ?_⟩
  intro call hcall
  rw [hcalls, List.mem_singleton] at hcall
  subst hcall
  rw [hparse]
  intro h
  exact hid (by injection h)

/-- C2, amended, at a concrete input: task 1 of the list `[1, 2]` with the option of
task 2 selected. -/
theorem offered_option_sends_other_task_witness :
    IsJsInteger 1 ∧ IsJsInteger 2 ∧
    (mkTask 2 "Test" "pending" ∈
      TaskItem.availableTasks (mkTask 1 "Build" "pending")
        [mkTask 1 "Build" "pending", mkTask 2 "Test" "pending"]) ∧
    (TaskItem.handleAddDependency (mkTask 1 "Build" "pending") (fun _ _ => .ok ())
        { TaskItem.State.initial with selectedDependency := "2" }).2
      = [(1, parseInt "2")] :=
  ⟨by decide, by decide, by decide,
    (offered_option_sends_other_task (mkTask 1 "Build" "pending") (mkTask 2 "Test" "pending")
      [mkTask 1 "Build" "pending", mkTask 2 "Test" "pending"] (fun _ _ => .ok ())
      { TaskItem.State.initial with selectedDependency := "2" } (by decide) (by decide)
      (by decide) (by decide) (by decide)).1⟩

/-- C3: when the add-dependency request fails with a response whose body `B` is truthy,
`taskAPI.addDependency` throws `B`, `TaskList.handleAddDependency` rethrows it
unchanged and leaves its state as it was, and `TaskItem` stores exactly `B` as its
error, so the `error` text and the `path` of the body are those of the backend. -/
theorem failed_request_body_is_stored (api : Backend) (T : Task) (s : TaskItem.State)
    (ls : TaskList.State) (e : AxiosError) (B : JsVal)
    (h1 : s.selectedDependency ≠ "") (h2 : s.selectedDependency ≠ numToString T.id)
    (hfail : api.send (taskAPI.addDependencyRequest T.id (parseInt s.selectedDependency))
      = .error e)
    (hbody : e.response = some ⟨B⟩) (htruthy : B.truthy = true) :
    taskAPI.addDependency api T.id (parseInt s.selectedDependency) = .error B ∧
    TaskList.handleAddDependency api T.id (parseInt s.selectedDependency) ls
      = (ls, .error B) ∧
    (TaskItem.handleAddDependency T
        (fun taskId dependsOnId => (TaskList.handleAddDependency api taskId dependsOnId ls).2)
        s).1.error = B ∧
    (TaskItem.handleAddDependency T
        (fun taskId dependsOnId => (TaskList.handleAddDependency api taskId dependsOnId ls).2)
        s).1.error.getProp "error" = B.getProp "error" ∧
    (TaskItem.handleAddDependency T
        (fun taskId dependsOnId => (TaskList.handleAddDependency api taskId dependsOnId ls).2)
        s).1.error.getProp "path" = B.getProp "path" := by
  have hapi : taskAPI.addDependency api T.id (parseInt s.selectedDependency) = .error B := by
    simp [taskAPI.addDependency, hfail, AxiosError.responseData, hbody, JsVal.or, htruthy]
  have hlist : TaskList.handleAddDependency api T.id (parseInt s.selectedDependency) ls
      = (ls, .error B) := by
    simp [TaskList.handleAddDependency, hapi]
  have hitem : (TaskItem.handleAddDependency T
        (fun taskId dependsOnId => (TaskList.handleAddDependency api taskId dependsOnId ls).2)
        s).1.error = B := by
    rw [TaskItem.handleAddDependency_request T _ s h1 h2]
    simp only [hlist]
  exact ⟨hapi, hlist, hitem, by rw [hitem], by rw [hitem]⟩

/-- C3, at a concrete input: the backend rejects the request of task 1 on task 2 with a
circular-dependency body. -/
theorem failed_request_body_is_stored_witness :
    (TaskItem.handleAddDependency (mkTask 1 "Build" "pending")
        (fun taskId dependsOnId =>
          (TaskList.handleAddDependency
            (rejectingBackend (.obj [("error", .str "Circular dependency detected"),
                                     ("path", .arr [.num 1, .num 2, .num 1])]))
            taskId dependsOnId ⟨[], false, "", false⟩).2)
        { TaskItem.State.initial with selectedDependency := "2" }).1.error
      = .obj [("error", .str "Circular dependency detected"),
              ("path", .arr [.num 1, .num 2, .num 1])] :=
  (failed_request_body_is_stored
    (rejectingBackend (.obj [("error", .str "Circular dependency detected"),
                             ("path", .arr [.num 1, .num 2, .num 1])]))
    (mkTask 1 "Build" "pending") { TaskItem.State.initial with selectedDependency := "2" }
    ⟨[], false, "", false⟩ ⟨some ⟨_⟩⟩ _ (by decide) (by decide) rfl rfl rfl).2.2.1

theorem TaskItem.children_enumFrom (allTasks : List Task) (n : Nat) :
    ∀ (l : List JsVal) (k : Nat), k + l.length = n →
      ((l.enumFrom k).map (fun p =>
        ({ taskId := p.2, name := TaskItem.entryName allTasks p.2,
           arrow := decide (p.1 < n - 1) } : TaskItem.PathFragment))).flatMap
          TaskItem.PathFragment.children
        = List.intersperse TaskItem.PathChild.arrow
            (l.map (fun x => TaskItem.PathChild.entry x (TaskItem.entryName allTasks x))) := by
  intro l
  induction l with
  | nil => intro k _; rfl
  | cons a rest ih =>
    intro k hk
    cases rest with
    | nil =>
      have : ¬ k < n - 1 := by simp at hk; omega
      simp [List.enumFrom, List.flatMap, TaskItem.PathFragment.children, this]
    | cons b rest2 =>
      have hlt : k < n - 1 := by simp at hk; omega
      have hrec := ih (k + 1) (by simp at hk ⊢; omega)
      simp only [List.enumFrom, List.map_cons, List.flatMap_cons, List.intersperse_cons₂]
        at hrec ⊢
      rw [hrec]
      simp [TaskItem.PathFragment.children, hlt]

theorem TaskItem.countP_isArrow_intersperse (entries : List TaskItem.PathChild)
    (h : ∀ c ∈ entries, c.isArrow = false) :
    (List.intersperse TaskItem.PathChild.arrow entries).countP TaskItem.PathChild.isArrow
      = entries.length - 1 := by
  induction entries with
  | nil => rfl
  | cons a rest ih =>
    cases rest with
    | nil => simp [h a (by simp)]
    | cons b rest2 =>
      have hrec := ih (fun c hc => h c (List.mem_cons_of_mem _ hc))
      have harrow : TaskItem.PathChild.isArrow .arrow = true := rfl
      simp only [List.intersperse_cons₂, List.countP_cons, h a (by simp), hrec, harrow,
        List.length_cons]
      simp

theorem TaskItem.getElem?_pathFragments (allTasks : List Task) (path : List JsVal) (i : Nat) :
    (TaskItem.pathFragments allTasks path).get? i =
      (path.get? i).map (fun x =>
        { taskId := x, name := TaskItem.entryName allTasks x,
          arrow := decide (i < path.length - 1) }) := by
  simp only [TaskItem.pathFragments, List.get?_eq_getElem?, List.getElem?_map,
    List.getElem?_enum, Option.map_map]
  rfl

theorem TaskItem.entryName_cases (allTasks : List Task) (x : JsVal) :
    (∃ t, allTasks.find? (fun t => JsVal.strictEq (.num t.id) x) = some t ∧ t.title ≠ "" ∧
        TaskItem.entryName allTasks x = .title t.title) ∨
    ((allTasks.find? (fun t => JsVal.strictEq (.num t.id) x) = none ∨
        ∃ t, allTasks.find? (fun t => JsVal.strictEq (.num t.id) x) = some t ∧ t.title = "") ∧
      TaskItem.entryName allTasks x = .hashId x) := by
  unfold TaskItem.entryName
  cases h : allTasks.find? (fun t => JsVal.strictEq (.num t.id) x) with
  | none => right; simp
  | some t =>
    by_cases ht : t.title = ""
    · right; simp [ht]
    · left; exact ⟨t, rfl, ht, by simp [ht]⟩

theorem TaskItem.isCircularError_undefined (error : JsVal)
    (hm : error.getProp "error" = .undefined) :
    TaskItem.isCircularError error = .ok .undefined := by
  simp [TaskItem.isCircularError, hm, optIncludes, JsVal.truthy]

theorem TaskItem.isCircularError_str (error : JsVal) (m : String)
    (hm : error.getProp "error" = .str m) :
    TaskItem.isCircularError error
      = .ok (.bool (includes m "Circular" || includes m "circular")) := by
  by_cases h : includes m "Circular" = true
  · simp [TaskItem.isCircularError, hm, optIncludes, JsVal.truthy, h]
  · simp [TaskItem.isCircularError, hm, optIncludes, JsVal.truthy, h]

theorem TaskItem.isSelfDependency_undefined (error : JsVal)
    (hm : error.getProp "error" = .undefined) :
    TaskItem.isSelfDependency error
      = .ok ((error.getProp "path").and
          (.bool (JsVal.strictEq ((error.getProp "path").getIndex 0)
            ((error.getProp "path").getIndex 1)))) := by
  simp [TaskItem.isSelfDependency, hm, optIncludes, JsVal.truthy]

theorem TaskItem.isSelfDependency_str (error : JsVal) (m : String)
    (hm : error.getProp "error" = .str m) :
    TaskItem.isSelfDependency error
      = .ok (if includes m "itself" = true then .bool true
          else (error.getProp "path").and
            (.bool (JsVal.strictEq ((error.getProp "path").getIndex 0)
              ((error.getProp "path").getIndex 1)))) := by
  by_cases h : includes m "itself" = true
  · simp [TaskItem.isSelfDependency, hm, optIncludes, JsVal.truthy, h]
  · simp [TaskItem.isSelfDependency, hm, optIncludes, JsVal.truthy, h]

theorem optIncludes_ok_of_includes (v : JsVal) (pattern : String)
    (h : v = .undefined ∨ v = .null ∨ (∃ m, v = .str m) ∨ ∃ xs, v = .arr xs) :
    ∃ r, optIncludes v pattern = .ok r := by
  rcases h with h | h | ⟨m, h⟩ | ⟨xs, h⟩ <;> subst h <;> exact ⟨_, rfl⟩

theorem TaskItem.isCircularError_ok (error : JsVal)
    (hmsg : error.getProp "error" = .undefined ∨ error.getProp "error" = .null ∨
      (∃ m, error.getProp "error" = .str m) ∨ ∃ xs, error.getProp "error" = .arr xs) :
    ∃ c, TaskItem.isCircularError error = .ok c := by
  obtain ⟨r1, h1⟩ := optIncludes_ok_of_includes _ "Circular" hmsg
  obtain ⟨r2, h2⟩ := optIncludes_ok_of_includes _ "circular" hmsg
  unfold TaskItem.isCircularError
  rw [h1, h2]
  by_cases ht : r1.truthy = true
  · exact ⟨r1, by simp [ht]⟩
  · exact ⟨r2, by simp [ht]⟩

theorem TaskItem.isSelfDependency_ok (error : JsVal)
    (hmsg : error.getProp "error" = .undefined ∨ error.getProp "error" = .null ∨
      (∃ m, error.getProp "error" = .str m) ∨ ∃ xs, error.getProp "error" = .arr xs) :
    ∃ d, TaskItem.isSelfDependency error = .ok d := by
  obtain ⟨r1, h1⟩ := optIncludes_ok_of_includes _ "itself" hmsg
  unfold TaskItem.isSelfDependency
  rw [h1]
  by_cases ht : r1.truthy = true
  · exact ⟨r1, by simp [ht]⟩
  · exact ⟨(error.getProp "path").and
      (.bool (JsVal.strictEq ((error.getProp "path").getIndex 0)
        ((error.getProp "path").getIndex 1))),
      by simp only [ht, Bool.false_eq_true, if_false]⟩

theorem JsVal.validChild_of_mem (items : List JsVal) (h : JsVal.validChildren items = true) :
    ∀ x ∈ items, x.validChild = true := by
  induction items with
  | nil => intro x hx; simp at hx
  | cons a rest ih =>
    simp only [JsVal.validChildren, Bool.and_eq_true] at h
    intro x hx
    rcases List.mem_cons.1 hx with hx | hx
    · rw [hx]; exact h.1
    · exact ih h.2 x hx

theorem TaskItem.pathFragments_valid (allTasks : List Task) (path : List JsVal)
    (h : JsVal.validChildren path = true) :
    (TaskItem.pathFragments allTasks path).all (fun fragment => fragment.taskId.validChild)
      = true := by
  rw [List.all_eq_true]
  intro f hf
  simp only [TaskItem.pathFragments, List.mem_map] at hf
  obtain ⟨q, hq, rfl⟩ := hf
  exact JsVal.validChild_of_mem path h q.2 (List.snd_mem_of_mem_enum hq)

theorem TaskItem.message_valid (error : JsVal)
    (hmsg : error.getProp "error" = .undefined ∨ error.getProp "error" = .null ∨
      (∃ m, error.getProp "error" = .str m) ∨
      ∃ xs, error.getProp "error" = .arr xs ∧ JsVal.validChildren xs = true) :
    ((error.getProp "error").or (.str "Failed to add dependency")).validChild = true := by
  rcases hmsg with h | h | ⟨m, h⟩ | ⟨xs, h, hxs⟩
  · rw [h]; rfl
  · rw [h]; rfl
  · rw [h]
    by_cases hm : (JsVal.str m).truthy = true
    · simp [JsVal.or, hm, JsVal.validChild]
    · simp [JsVal.or, hm, JsVal.validChild]
  · rw [h]
    simpa [JsVal.or, JsVal.truthy, JsVal.validChild] using hxs

theorem TaskItem.renderErrorMessage_ok (allTasks : List Task) (error c d : JsVal)
    (b : Option (List TaskItem.PathFragment)) (htruthy : error.truthy = true)
    (hc : TaskItem.isCircularError error = .ok c)
    (hd : TaskItem.isSelfDependency error = .ok d)
    (hb : TaskItem.pathBlock allTasks (error.getProp "path") = .ok b)
    (hmessage : ((error.getProp "error").or (.str "Failed to add dependency")).validChild
      = true)
    (hentries : (b.getD []).all (fun fragment => fragment.taskId.validChild) = true) :
    TaskItem.renderErrorMessage allTasks error = .ok (some
      { isCircularError := c
        isSelfDependency := d
        kind := TaskItem.errorKind c d
        boxClass := TaskItem.boxClass (TaskItem.errorKind c d)
        iconClass := TaskItem.iconClass (TaskItem.errorKind c d)
        textClass := TaskItem.textClass (TaskItem.errorKind c d)
        message := (error.getProp "error").or (.str "Failed to add dependency")
        path := b }) := by
  simp [TaskItem.renderErrorMessage, htruthy, hc, hd, hb, hmessage, hentries]

theorem TaskItem.pathBlock_ok (allTasks : List Task) (path : JsVal)
    (h : path.truthy = false ∨ TaskItem.gtZero (path.getProp "length") = some false ∨
      ∃ p, path = .arr p ∧ JsVal.validChildren p = true) :
    ∃ b, TaskItem.pathBlock allTasks path = .ok b ∧
      (b.getD []).all (fun fragment => fragment.taskId.validChild) = true := by
  rcases h with h | h | ⟨p, rfl, hp⟩
  · exact ⟨none, by simp [TaskItem.pathBlock, h], rfl⟩
  · refine ⟨none, ?_, rfl⟩
    unfold TaskItem.pathBlock
    by_cases ht : path.truthy = true
    · cases path <;>
        simp_all [JsVal.getProp, TaskItem.gtZero, JsVal.truthy]
    · simp [ht]
  · by_cases hlen : 0 < p.length
    · exact ⟨some (TaskItem.pathFragments allTasks p),
        by simp [TaskItem.pathBlock, JsVal.truthy, hlen],
        TaskItem.pathFragments_valid allTasks p hp⟩
    · exact ⟨none, by simp [TaskItem.pathBlock, JsVal.truthy, hlen], rfl⟩

theorem TaskItem.renderErrorMessage_path (allTasks : List Task) (error : JsVal)
    (path : List JsVal) (hpath : error.getProp "path" = .arr path) (hne : path ≠ [])
    (hentries : JsVal.validChildren path = true)
    (hmsg : error.getProp "error" = .undefined ∨ error.getProp "error" = .null ∨
      (∃ m, error.getProp "error" = .str m) ∨
      ∃ xs, error.getProp "error" = .arr xs ∧ JsVal.validChildren xs = true) :
    ∃ v, TaskItem.renderErrorMessage allTasks error = .ok (some v) ∧
      v.path = some (TaskItem.pathFragments allTasks path) := by
  have htruthy : error.truthy = true := by
    cases error <;> simp_all [JsVal.getProp, JsVal.truthy]
  have hlen : 0 < path.length := List.length_pos.2 hne
  have hblock : TaskItem.pathBlock allTasks (error.getProp "path")
      = .ok (some (TaskItem.pathFragments allTasks path)) := by
    rw [hpath]
    simp [TaskItem.pathBlock, JsVal.truthy, hlen]
  have hincl : error.getProp "error" = .undefined ∨ error.getProp "error" = .null ∨
      (∃ m, error.getProp "error" = .str m) ∨ ∃ xs, error.getProp "error" = .arr xs := by
    rcases hmsg with h | h | h | ⟨xs, h, -⟩
    · exact Or.inl h
    · exact Or.inr (Or.inl h)
    · exact Or.inr (Or.inr (Or.inl h))
    · exact Or.inr (Or.inr (Or.inr ⟨xs, h⟩))
  obtain ⟨c, hc⟩ := TaskItem.isCircularError_ok error hincl
  obtain ⟨d, hd⟩ := TaskItem.isSelfDependency_ok error hincl
  exact ⟨_, TaskItem.renderErrorMessage_ok allTasks error c d _ htruthy hc hd hblock
    (TaskItem.message_valid error hmsg)
    (TaskItem.pathFragments_valid allTasks path hentries), rfl⟩

/-- C4, as stated, fails on an error whose `error` has no `includes`, and on a path
entry React cannot render: for `{error: 500, path: [1, 2]}` the call
`error.error?.includes('Circular')` throws a `TypeError` before anything is rendered,
and for the path `[{id: 1}]` React throws on the object child. -/
theorem numeric_error_path_is_not_rendered :
    TaskItem.renderErrorMessage [mkTask 1 "Build" "pending", mkTask 2 "Test" "pending"]
        (.obj [("error", .num 500), ("path", .arr [.num 1, .num 2])])
      = .error .typeError ∧
    TaskItem.renderErrorMessage [mkTask 1 "Build" "pending", mkTask 2 "Test" "pending"]
        (.obj [("error", .str "Circular dependency detected"),
               ("path", .arr [.obj [("id", .num 1)]])])
      = .error .invalidChild :=
  ⟨rfl, rfl⟩

/-- C4, amended: for an error with a non-empty `path` array whose `error` is missing
(`undefined` or `null`), a string or an array, and in which React can render every
child (no plain object among the path entries or in an array `error`),
`renderErrorMessage` renders the path list with exactly `path.length` entries in the
order of `path`, the i-th labelled with `path[i]` and the title of the first task of
`allTasks` whose id is `path[i]` (or `#` and `path[i]` when there is no such task or
its title is empty), and with exactly `path.length - 1` arrows, one between each two
consecutive entries. -/
theorem path_list_rendering (allTasks : List Task) (error : JsVal) (path : List JsVal)
    (hpath : error.getProp "path" = .arr path) (hne : path ≠ [])
    (hentries : JsVal.validChildren path = true)
    (hmsg : error.getProp "error" = .undefined ∨ error.getProp "error" = .null ∨
      (∃ m, error.getProp "error" = .str m) ∨
      ∃ xs, error.getProp "error" = .arr xs ∧ JsVal.validChildren xs = true) :
    ∃ v fragments, TaskItem.renderErrorMessage allTasks error = .ok (some v) ∧
      v.path = some fragments ∧
      fragments.length = path.length ∧
      (∀ i x, path.get? i = some x →
        ∃ f, fragments.get? i = some f ∧ f.taskId = x ∧
          f.arrow = decide (i + 1 < path.length) ∧
          ((∃ t, allTasks.find? (fun t => JsVal.strictEq (.num t.id) x) = some t ∧
              t.title ≠ "" ∧ f.name = .title t.title) ∨
           ((allTasks.find? (fun t => JsVal.strictEq (.num t.id) x) = none ∨
              ∃ t, allTasks.find? (fun t => JsVal.strictEq (.num t.id) x) = some t ∧
                t.title = "") ∧
            f.name = .hashId x))) ∧
      TaskItem.pathChildren fragments
        = List.intersperse TaskItem.PathChild.arrow
            (fragments.map (fun f => TaskItem.PathChild.entry f.taskId f.name)) ∧
      (TaskItem.pathChildren fragments).countP TaskItem.PathChild.isArrow = path.length - 1 := by
  obtain ⟨v, hv, hvp⟩ :=
    TaskItem.renderErrorMessage_path allTasks error path hpath hne hentries hmsg
  have hchildren := TaskItem.children_enumFrom allTasks path.length path 0 (by simp)
  have hmap : (TaskItem.pathFragments allTasks path).map
        (fun f => TaskItem.PathChild.entry f.taskId f.name)
      = path.map (fun x => TaskItem.PathChild.entry x (TaskItem.entryName allTasks x)) := by
    simp only [TaskItem.pathFragments, List.map_map]
    conv_rhs => rw [← List.enum_map_snd path, List.map_map]
    rfl
  have hkids : TaskItem.pathChildren (TaskItem.pathFragments allTasks path)
      = List.intersperse TaskItem.PathChild.arrow
          (path.map (fun x => TaskItem.PathChild.entry x (TaskItem.entryName allTasks x))) :=
    hchildren
  refine ⟨v, TaskItem.pathFragments allTasks path, hv, hvp,
    by simp [TaskItem.pathFragments], ?_, ?_, ?_⟩
  · intro i x hx
    refine ⟨{ taskId := x, name := TaskItem.entryName allTasks x,
              arrow := decide (i < path.length - 1) }, ?_, rfl, ?_,
      TaskItem.entryName_cases allTasks x⟩
    · rw [TaskItem.getElem?_pathFragments, hx]; rfl
    · have hi : i < path.length := by
        rw [List.get?_eq_getElem?] at hx
        exact (List.getElem?_eq_some_iff.1 hx).1
      simp only [decide_eq_decide]
      omega
  · rw [hkids, hmap]
  · rw [hkids, TaskItem.countP_isArrow_intersperse _ (by simp [TaskItem.PathChild.isArrow]),
      List.length_map]

/-- C4, amended, at a concrete input: the cycle path `[1, 2, 1]` over the tasks 1 (titled) and
2 (untitled). -/
theorem path_list_rendering_witness :
    ∃ v fragments,
      TaskItem.renderErrorMessage [mkTask 1 "Build" "pending", mkTask 2 "" "pending"]
        (.obj [("error", .str "Circular dependency detected"),
               ("path", .arr [.num 1, .num 2, .num 1])]) = .ok (some v) ∧
      v.path = some fragments ∧ fragments.length = 3 ∧
      (TaskItem.pathChildren fragments).countP TaskItem.PathChild.isArrow = 2 := by
  obtain ⟨v, fragments, h1, h2, h3, -, -, h6⟩ :=
    path_list_rendering [mkTask 1 "Build" "pending", mkTask 2 "" "pending"]
      (.obj [("error", .str "Circular dependency detected"),
             ("path", .arr [.num 1, .num 2, .num 1])])
      [.num 1, .num 2, .num 1] rfl (by simp) rfl (Or.inr (Or.inr (Or.inl ⟨_, rfl⟩)))
  exact ⟨v, fragments, h1, h2, h3, h6⟩

theorem TaskItem.renderErrorMessage_kind (allTasks : List Task) (error : JsVal) (m : String)
    (path : List JsVal) (hm : error.getProp "error" = .str m)
    (hpath : error.getProp "path" = .arr path)
    (hentries : JsVal.validChildren path = true) :
    ∃ v, TaskItem.renderErrorMessage allTasks error = .ok (some v) ∧
      (v.kind = .circular ↔ includes m "Circular" = true ∨ includes m "circular" = true) ∧
      (v.kind = .selfDependency ↔
        ¬ (includes m "Circular" = true ∨ includes m "circular" = true) ∧
        (includes m "itself" = true ∨
          JsVal.strictEq (path[0]?.getD .undefined) (path[1]?.getD .undefined) = true)) := by
  have htruthy : error.truthy = true := by
    cases error <;> simp_all [JsVal.getProp, JsVal.truthy]
  obtain ⟨b, hb, hbv⟩ := TaskItem.pathBlock_ok allTasks (error.getProp "path")
    (Or.inr (Or.inr ⟨path, hpath, hentries⟩))
  have hrender := TaskItem.renderErrorMessage_ok allTasks error _ _ b htruthy
    (TaskItem.isCircularError_str error m hm) (TaskItem.isSelfDependency_str error m hm) hb
    (TaskItem.message_valid error (Or.inr (Or.inr (Or.inl ⟨m, hm⟩)))) hbv
  refine ⟨_, hrender, ?_, ?_⟩ <;>
    simp only [hpath] <;>
    by_cases h1 : includes m "Circular" = true <;>
    by_cases h2 : includes m "circular" = true <;>
    by_cases h3 : includes m "itself" = true <;>
    by_cases h4 : JsVal.strictEq (path[0]?.getD .undefined)
        (path[1]?.getD .undefined) = true <;>
    simp [TaskItem.errorKind, JsVal.truthy, JsVal.and, JsVal.getIndex, h1, h2, h3, h4]

/-- C5: the error `{error: 'Server error', path: []}` has a message without `Circular`,
`circular` or `itself` and a path of fewer than two entries, and `renderErrorMessage`
still takes the self-dependency arm for it: of an empty path both `path[0]` and
`path[1]` are `undefined`, which are equal. -/
theorem empty_path_rendered_as_selfDependency :
    includes "Server error" "Circular" = false ∧
    includes "Server error" "circular" = false ∧
    includes "Server error" "itself" = false ∧
    ∃ v, TaskItem.renderErrorMessage []
          (.obj [("error", .str "Server error"), ("path", .arr [])]) = .ok (some v) ∧
      v.isCircularError = .bool false ∧ v.isSelfDependency = .bool true ∧
      v.kind = .selfDependency ∧
      v.boxClass = "mb-2 p-3 rounded-md bg-yellow-50 border border-yellow-200" :=
  ⟨by decide, by decide, by decide, _, rfl, rfl, rfl, rfl, rfl⟩

/-- C6: the task with id 0 is in the task list, it is selected, one dependency record
has it as `task`, and no details panel is rendered, so no counts are shown for it:
`selectedNode && ...` is falsy for the id 0. -/
theorem details_panel_hidden_for_id_zero :
    zeroIdGraph.tasks.map (fun t => t.id) = [0, 1] ∧
    zeroIdGraph.selectedNode = some 0 ∧
    zeroIdGraph.dependencies.countP (fun d => d.task = 0) = 1 ∧
    GraphVisualization.detailsPanel zeroIdGraph = none := by
  decide

theorem find?_id_of_mem (tasks : List Task) (X : Task) (hX : X ∈ tasks) :
    ∃ task, tasks.find? (fun t => t.id == X.id) = some task ∧ task.id = X.id := by
  cases h : tasks.find? (fun t => t.id == X.id) with
  | none =>
    have := List.find?_eq_none.1 h X hX
    simp at this
  | some task =>
    have := List.find?_some h
    exact ⟨task, rfl, by simpa using this⟩

/-- The details panel of a selected task `X` of the task list whose id is not 0: it is
rendered, shows as `Dependencies` the number of records with `task == X.id` and as
`Dependents` the number with `depends_on == X.id`, and its `Depends On` and
`Dependent Tasks` lists are exactly those records, in the order of the dependency
list. -/
theorem details_panel_counts (s : GraphVisualization.State) (X : Task)
    (hX : X ∈ s.tasks) (hsel : s.selectedNode = some X.id) (hid : X.id ≠ 0) :
    ∃ p, GraphVisualization.detailsPanel s = some p ∧
      p.dependencies = s.dependencies.countP (fun d => d.task = X.id) ∧
      p.dependents = s.dependencies.countP (fun d => d.depends_on = X.id) ∧
      (p.dependsOn.getD []).map (fun r => (r.key, r.shownId))
        = (s.dependencies.filter (fun d => d.task = X.id)).map
            (fun d => (d.id, d.depends_on)) ∧
      (p.dependentTasks.getD []).map (fun r => (r.key, r.shownId))
        = (s.dependencies.filter (fun d => d.depends_on = X.id)).map
            (fun d => (d.id, d.task)) := by
  obtain ⟨task, hfind, htask⟩ := find?_id_of_mem s.tasks X hX
  have hp1 : (fun d : Dependency => d.task == X.id) = (fun d => decide (d.task = X.id)) := by
    funext d; rfl
  have hp2 : (fun d : Dependency => d.depends_on == X.id)
      = (fun d => decide (d.depends_on = X.id)) := by
    funext d; rfl
  unfold GraphVisualization.detailsPanel
  simp only [hsel, hid, if_false, hfind, htask, hp1, hp2]
  refine ⟨_, rfl, ?_, ?_, ?_, ?_⟩
  · exact (List.countP_eq_length_filter _ _).symm
  · exact (List.countP_eq_length_filter _ _).symm
  · by_cases h : 0 < (s.dependencies.filter (fun d => decide (d.task = X.id))).length
    · simp only [h, if_true, Option.getD_some, List.map_map]
      rfl
    · have h0 : s.dependencies.filter (fun d => decide (d.task = X.id)) = [] :=
        List.length_eq_zero.1 (by omega)
      rw [h0]
      rfl
  · by_cases h : 0 < (s.dependencies.filter (fun d => decide (d.depends_on = X.id))).length
    · simp only [h, if_true, Option.getD_some, List.map_map]
      rfl
    · have h0 : s.dependencies.filter (fun d => decide (d.depends_on = X.id)) = [] :=
        List.length_eq_zero.1 (by omega)
      rw [h0]
      rfl

/-- The details panel at a concrete input: task 2 selected, with one dependency and one
dependent. -/
theorem details_panel_counts_witness :
    ∃ p, GraphVisualization.detailsPanel
          { tasks := [mkTask 1 "Build" "pending", mkTask 2 "Test" "pending",
                      mkTask 3 "Ship" "pending"]
            dependencies := [⟨10, 2, 1⟩, ⟨11, 3, 2⟩]
            loading := false
            selectedNode := some 2 } = some p ∧
      p.dependencies = 1 ∧ p.dependents = 1 := by
  obtain ⟨p, h1, h2, h3, -, -⟩ :=
    details_panel_counts
      { tasks := [mkTask 1 "Build" "pending", mkTask 2 "Test" "pending",
                  mkTask 3 "Ship" "pending"]
        dependencies := [⟨10, 2, 1⟩, ⟨11, 3, 2⟩]
        loading := false
        selectedNode := some 2 }
      (mkTask 2 "Test" "pending") (by decide) rfl (by decide)
  exact ⟨p, h1, by rw [h2]; decide, by rw [h3]; decide⟩

/-- C7: when the delete request succeeds, `handleTaskDelete` leaves a task list without
any task of that id, in which every other task of the previous list is still present,
as often as before and in the same relative order. -/
theorem successful_delete_removes_task (api : Backend) (s : TaskList.State) (taskId : Int)
    (hok : api.delete taskId = .ok ()) :
    (∀ t ∈ (TaskList.handleTaskDelete api taskId s).1.tasks, t.id ≠ taskId) ∧
    (∀ t ∈ s.tasks, t.id ≠ taskId →
      t ∈ (TaskList.handleTaskDelete api taskId s).1.tasks) ∧
    (∀ t : Task, t.id ≠ taskId →
      (TaskList.handleTaskDelete api taskId s).1.tasks.count t = s.tasks.count t) ∧
    (TaskList.handleTaskDelete api taskId s).1.tasks.Sublist s.tasks := by
  have htasks : (TaskList.handleTaskDelete api taskId s).1.tasks
      = s.tasks.filter (fun task => task.id != taskId) := by
    simp [TaskList.handleTaskDelete, hok]
  rw [htasks]
  refine ⟨?_, ?_, ?_, List.filter_sublist _⟩
  · intro t ht
    simpa using (List.mem_filter.1 ht).2
  · intro t ht hne
    exact List.mem_filter.2 ⟨ht, by simpa using hne⟩
  · intro t hne
    rw [List.count_filter]
    simpa using hne

/-- C7, at a concrete input: task 2 deleted from the list `[1, 2, 3]`. -/
theorem successful_delete_removes_task_witness :
    scenarioBackend.delete 2 = .ok () ∧
    (TaskList.handleTaskDelete scenarioBackend 2
        ⟨[mkTask 1 "Build" "pending", mkTask 2 "Test" "pending", mkTask 3 "Ship" "pending"],
          false, "", false⟩).1.tasks.Sublist
      [mkTask 1 "Build" "pending", mkTask 2 "Test" "pending", mkTask 3 "Ship" "pending"] :=
  ⟨rfl,
    (successful_delete_removes_task scenarioBackend
      ⟨[mkTask 1 "Build" "pending", mkTask 2 "Test" "pending", mkTask 3 "Ship" "pending"],
        false, "", false⟩ 2 rfl).2.2.2⟩

/-- C8: when the delete request fails, `handleTaskDelete` leaves the state, and so the
task list, exactly as it was, and shows its alert; the same holds when the handler
is reached through the delete button of a `TaskItem`. -/
theorem failed_delete_keeps_tasks (api : Backend) (s : TaskList.State) (taskId : Int)
    (e : AxiosError) (hfail : api.delete taskId = .error e) :
    (TaskList.handleTaskDelete api taskId s).1 = s ∧
    (TaskList.handleTaskDelete api taskId s).1.tasks = s.tasks ∧
    (TaskList.handleTaskDelete api taskId s).2
      = ["Failed to delete task. Make sure no tasks depend on it."] ∧
    ∀ (T : Task) (confirmed : Bool), T.id = taskId →
      TaskItem.deleteClicked T confirmed
        (fun id parent => (TaskList.handleTaskDelete api id parent).1) s = s := by
  have hstate : TaskList.handleTaskDelete api taskId s
      = (s, ["Failed to delete task. Make sure no tasks depend on it."]) := by
    simp [TaskList.handleTaskDelete, hfail]
  refine ⟨by rw [hstate], by rw [hstate], by rw [hstate], ?_⟩
  intro T confirmed hT
  cases confirmed
  · rfl
  · simp [TaskItem.deleteClicked, hT, hstate]

/-- C8, at a concrete input: the backend refuses to delete task 6 of the scenario. -/
theorem failed_delete_keeps_tasks_witness :
    (rejectingBackend (.obj [("error", .str "Cannot delete: task has dependents")])).delete 6
      = .error ⟨some ⟨.obj [("error", .str "Cannot delete: task has dependents")]⟩⟩ ∧
    (TaskList.handleTaskDelete
        (rejectingBackend (.obj [("error", .str "Cannot delete: task has dependents")]))
        6 scenarioTasks).1.tasks = scenarioTasks.tasks :=
  ⟨rfl,
    (failed_delete_keeps_tasks
      (rejectingBackend (.obj [("error", .str "Cannot delete: task has dependents")]))
      scenarioTasks 6 _ rfl).2.1⟩

/-- C9: in the scenario (task 5 blocked, its prerequisite task 6 pending), after the
status of task 6 is changed to completed and the update succeeds, the task list
still holds task 5 with status `blocked`: only the entry of task 6 is replaced, and
the tasks are not fetched again, although the backend now serves task 5 as
`pending`. -/
theorem blocked_status_stays_after_prerequisite_completed :
    (TaskItem.handleStatusChange (mkTask 6 "Review" "pending")
        (TaskList.handleTaskUpdate scenarioBackend) "completed" scenarioTasks).1.tasks.map
      (fun t => (t.id, t.status)) = [(5, "blocked"), (6, "completed")] ∧
    (TaskItem.handleStatusChange (mkTask 6 "Review" "pending")
        (TaskList.handleTaskUpdate scenarioBackend) "completed" scenarioTasks).2 = [] ∧
    (TaskList.fetchTasks scenarioBackend scenarioTasks).tasks.map
      (fun t => (t.id, t.status)) = [(5, "pending"), (6, "completed")] := by
  decide

/-- C10: with the tasks 1 and 2 and the existing edge `2 -> 1` (task 2 depends on
task 1), the dropdown of task 1 offers task 2, whose selection would close the cycle
`1 -> 2 -> 1`: `availableTasks` filters out the task itself only. -/
theorem availableTasks_offers_cycle_closing_task :
    TaskItem.availableTasks (mkTask 1 "Build" "pending")
        [mkTask 1 "Build" "pending", mkTask 2 "Test" "pending"]
      = [mkTask 2 "Test" "pending"] ∧
    wouldCreateCycle [{ id := 1, task := 2, depends_on := 1 }] 1 2 = true := by
  decide

theorem TaskList.itemHandleAddDependency_failed (api : Backend) (T : Task)
    (s : TaskItem.State) (ls : TaskList.State) (e : AxiosError)
    (h1 : s.selectedDependency ≠ "") (h2 : s.selectedDependency ≠ numToString T.id)
    (hfail : api.send (taskAPI.addDependencyRequest T.id (parseInt s.selectedDependency))
      = .error e) :
    (TaskList.itemHandleAddDependency api ls T s).error
      = e.responseData.or (.obj [("error", .str "Failed to add dependency")]) := by
  unfold TaskList.itemHandleAddDependency
  rw [TaskItem.handleAddDependency_request T _ s h1 h2]
  simp [TaskList.handleAddDependency, taskAPI.addDependency, hfail]

theorem TaskItem.render_default_error (allTasks : List Task) :
    TaskItem.renderErrorMessage allTasks (.obj [("error", .str "Failed to add dependency")])
      = .ok (some
        { isCircularError := .bool false
          isSelfDependency := .undefined
          kind := .generic
          boxClass := "mb-2 p-3 rounded-md bg-red-50 border border-red-200"
          iconClass := "mt-0.5 text-red-600"
          textClass := "font-medium text-red-700"
          message := .str "Failed to add dependency"
          path := none }) := by
  rfl

theorem TaskItem.renderErrorMessage_message (allTasks : List Task) (error : JsVal)
    (htruthy : error.truthy = true)
    (hmsg : error.getProp "error" = .undefined ∨ error.getProp "error" = .null ∨
      ∃ m, error.getProp "error" = .str m)
    (hpath : (error.getProp "path").truthy = false ∨
      TaskItem.gtZero ((error.getProp "path").getProp "length") = some false ∨
      ∃ p, error.getProp "path" = .arr p ∧ JsVal.validChildren p = true) :
    ∃ v, TaskItem.renderErrorMessage allTasks error = .ok (some v) ∧
      v.message = (error.getProp "error").or (.str "Failed to add dependency") := by
  have hincl : error.getProp "error" = .undefined ∨ error.getProp "error" = .null ∨
      (∃ m, error.getProp "error" = .str m) ∨ ∃ xs, error.getProp "error" = .arr xs := by
    rcases hmsg with h | h | h
    · exact Or.inl h
    · exact Or.inr (Or.inl h)
    · exact Or.inr (Or.inr (Or.inl h))
  have hvalid : error.getProp "error" = .undefined ∨ error.getProp "error" = .null ∨
      (∃ m, error.getProp "error" = .str m) ∨
      ∃ xs, error.getProp "error" = .arr xs ∧ JsVal.validChildren xs = true := by
    rcases hmsg with h | h | h
    · exact Or.inl h
    · exact Or.inr (Or.inl h)
    · exact Or.inr (Or.inr (Or.inl h))
  obtain ⟨c, hc⟩ := TaskItem.isCircularError_ok error hincl
  obtain ⟨d, hd⟩ := TaskItem.isSelfDependency_ok error hincl
  obtain ⟨b, hb, hbv⟩ := TaskItem.pathBlock_ok allTasks _ hpath
  exact ⟨_, TaskItem.renderErrorMessage_ok allTasks error c d b htruthy hc hd hb
    (TaskItem.message_valid error hvalid) hbv, rfl⟩

/-- C11, as stated, fails on a body whose `error` is not a text and on a path entry
React cannot render: the failed request answered with `{error: 500}` leaves that body
as the error of the `TaskItem`, and `renderErrorMessage` throws a `TypeError` on it
instead of displaying a message; with the body
`{error: 'Circular dependency detected', path: [{id: 1}]}` React throws on the object
child. -/
theorem numeric_error_body_is_not_rendered :
    (TaskList.itemHandleAddDependency (rejectingBackend (.obj [("error", .num 500)]))
        TaskList.State.initial (mkTask 1 "Build" "pending")
        { TaskItem.State.initial with selectedDependency := "2" }).error
      = .obj [("error", .num 500)] ∧
    TaskItem.renderErrorMessage [mkTask 1 "Build" "pending", mkTask 2 "Test" "pending"]
        (TaskList.itemHandleAddDependency (rejectingBackend (.obj [("error", .num 500)]))
          TaskList.State.initial (mkTask 1 "Build" "pending")
          { TaskItem.State.initial with selectedDependency := "2" }).error
      = .error .typeError ∧
    TaskItem.renderErrorMessage [mkTask 1 "Build" "pending", mkTask 2 "Test" "pending"]
        (TaskList.itemHandleAddDependency
          (rejectingBackend (.obj [("error", .str "Circular dependency detected"),
                                   ("path", .arr [.obj [("id", .num 1)]])]))
          TaskList.State.initial (mkTask 1 "Build" "pending")
          { TaskItem.State.initial with selectedDependency := "2" }).error
      = .error .invalidChild :=
  ⟨rfl, rfl, rfl⟩

/-- C11, amended: for every failed add-dependency request, with or without a response
body, the error `TaskItem` holds is truthy; and when the `error` of the body is a text
or missing (`undefined` or `null`) and its `path` is falsy, has no positive `length`,
or is an array whose entries React can render (no plain object among them),
`renderErrorMessage` displays a non-empty string: the `error` text of the body when it
is non-empty, otherwise `'Failed to add dependency'`. -/
theorem failed_request_displays_message (api : Backend) (T : Task) (s : TaskItem.State)
    (ls : TaskList.State) (allTasks : List Task) (e : AxiosError)
    (h1 : s.selectedDependency ≠ "") (h2 : s.selectedDependency ≠ numToString T.id)
    (hfail : api.send (taskAPI.addDependencyRequest T.id (parseInt s.selectedDependency))
      = .error e)
    (hmsg : e.responseData.getProp "error" = .undefined ∨
      e.responseData.getProp "error" = .null ∨
      ∃ m, e.responseData.getProp "error" = .str m)
    (hpath : (e.responseData.getProp "path").truthy = false ∨
      TaskItem.gtZero ((e.responseData.getProp "path").getProp "length") = some false ∨
      ∃ p, e.responseData.getProp "path" = .arr p ∧ JsVal.validChildren p = true) :
    (TaskList.itemHandleAddDependency api ls T s).error.truthy = true ∧
    ∃ v text, TaskItem.renderErrorMessage allTasks
          (TaskList.itemHandleAddDependency api ls T s).error = .ok (some v) ∧
      v.message = .str text ∧ text ≠ "" ∧
      (∀ m, e.responseData.getProp "error" = .str m → m ≠ "" → text = m) ∧
      ((¬ ∃ m, e.responseData.getProp "error" = .str m ∧ m ≠ "") →
        text = "Failed to add dependency") := by
  rw [TaskList.itemHandleAddDependency_failed api T s ls e h1 h2 hfail]
  by_cases hB : e.responseData.truthy = true
  · have hor : e.responseData.or (.obj [("error", .str "Failed to add dependency")])
        = e.responseData := by simp [JsVal.or, hB]
    rw [hor]
    refine ⟨hB, ?_⟩
    obtain ⟨v, hv, hmessage⟩ :=
      TaskItem.renderErrorMessage_message allTasks e.responseData hB hmsg hpath
    rcases hmsg with hm | hm | ⟨m, hm⟩
    · refine ⟨v, "Failed to add dependency", hv, ?_, by decide, ?_, fun _ => rfl⟩
      · rw [hmessage, hm]; rfl
      · intro m hm2; rw [hm] at hm2; cases hm2
    · refine ⟨v, "Failed to add dependency", hv, ?_, by decide, ?_, fun _ => rfl⟩
      · rw [hmessage, hm]; rfl
      · intro m hm2; rw [hm] at hm2; cases hm2
    · by_cases hempty : m = ""
      · refine ⟨v, "Failed to add dependency", hv, ?_, by decide, ?_, fun _ => rfl⟩
        · rw [hmessage, hm, hempty]; rfl
        · intro m2 hm2 hne
          rw [hm] at hm2
          cases hm2
          exact absurd hempty hne
      · refine ⟨v, m, hv, ?_, hempty, ?_, ?_⟩
        · rw [hmessage, hm]; simp [JsVal.or, JsVal.truthy, hempty]
        · intro m2 hm2 _
          rw [hm] at hm2
          cases hm2
          rfl
        · intro hnone
          exact absurd ⟨m, hm, hempty⟩ hnone
  · have hor : e.responseData.or (.obj [("error", .str "Failed to add dependency")])
        = .obj [("error", .str "Failed to add dependency")] := by simp [JsVal.or, hB]
    rw [hor]
    refine ⟨rfl, _, "Failed to add dependency", TaskItem.render_default_error allTasks, rfl,
      by decide, ?_, fun _ => rfl⟩
    intro m hm _
    have : e.responseData.truthy = true := by
      cases hd : e.responseData <;> simp_all [JsVal.getProp, JsVal.truthy]
    exact absurd this hB

/-- C11, amended, at a concrete input: the request of task 1 on task 2 is rejected with
a circular-dependency body. -/
theorem failed_request_displays_message_witness :
    (TaskList.itemHandleAddDependency
        (rejectingBackend (.obj [("error", .str "Circular dependency detected"),
                                 ("path", .arr [.num 1, .num 2, .num 1])]))
        TaskList.State.initial (mkTask 1 "Build" "pending")
        { TaskItem.State.initial with selectedDependency := "2" }).error.truthy = true :=
  (failed_request_displays_message
    (rejectingBackend (.obj [("error", .str "Circular dependency detected"),
                             ("path", .arr [.num 1, .num 2, .num 1])]))
    (mkTask 1 "Build" "pending") { TaskItem.State.initial with selectedDependency := "2" }
    TaskList.State.initial [] ⟨some ⟨_⟩⟩ (by decide) (by decide) rfl
    (Or.inr (Or.inr ⟨_, rfl⟩)) (Or.inr (Or.inr ⟨_, rfl, rfl⟩))).1

/-- C12: for every `taskId` and `dependsOnId`, `taskAPI.checkCircular` sends the very
request `taskAPI.addDependency` sends, the POST to `add_dependency` that commits the
dependency, and succeeds with the same response; for task 1 and task 2 it is the POST
to `/tasks/1/add_dependency/`. -/
theorem checkCircular_sends_the_commit_request (api : Backend) (taskId : Int)
    (dependsOnId : JsVal) :
    taskAPI.checkCircularRequest taskId dependsOnId
      = taskAPI.addDependencyRequest taskId dependsOnId ∧
    (taskAPI.checkCircular api taskId dependsOnId).toOption
      = (taskAPI.addDependency api taskId dependsOnId).toOption ∧
    (taskAPI.checkCircularRequest 1 (.num 2)).method = "POST" ∧
    (taskAPI.checkCircularRequest 1 (.num 2)).url = "/tasks/1/add_dependency/" := by
  refine ⟨rfl, ?_, rfl, by decide⟩
  unfold taskAPI.checkCircular taskAPI.addDependency
  have hreq : taskAPI.checkCircularRequest taskId dependsOnId
      = taskAPI.addDependencyRequest taskId dependsOnId := rfl
  rw [hreq]
  cases api.send (taskAPI.addDependencyRequest taskId dependsOnId) <;> rfl

/-- C13: the page is mounted with task 1 alone; after `handleTaskCreated` of task 2,
after `handleTaskDelete` of task 1, and after a successful `handleAddDependency` of
task 1 on task 2, the task list of `TaskList` has changed while the tasks and
dependencies held by `GraphVisualization` are those of the mount; they follow only
when Refresh is clicked. -/
theorem graph_keeps_mount_data_after_task_changes :
    (App.onTaskList (TaskList.handleTaskCreated (mkTask 2 "Test" "pending"))
        (App.mount (servingBackend [mkTask 1 "Build" "pending"] []))).taskList.tasks
      = [mkTask 2 "Test" "pending", mkTask 1 "Build" "pending"] ∧
    (App.onTaskList (TaskList.handleTaskCreated (mkTask 2 "Test" "pending"))
        (App.mount (servingBackend [mkTask 1 "Build" "pending"] []))).graph.tasks
      = [mkTask 1 "Build" "pending"] ∧
    (App.onTaskList (fun ls => (TaskList.handleTaskDelete (servingBackend [] []) 1 ls).1)
        (App.mount (servingBackend [mkTask 1 "Build" "pending"] []))).taskList.tasks = [] ∧
    (App.onTaskList (fun ls => (TaskList.handleTaskDelete (servingBackend [] []) 1 ls).1)
        (App.mount (servingBackend [mkTask 1 "Build" "pending"] []))).graph.tasks
      = [mkTask 1 "Build" "pending"] ∧
    (App.onTaskList
        (fun ls =>
          (TaskList.handleAddDependency
            (servingBackend [mkTask 1 "Build" "blocked", mkTask 2 "Test" "pending"]
              [{ id := 1, task := 1, depends_on := 2 }]) 1 (.num 2) ls).1)
        (App.mount
          (servingBackend [mkTask 1 "Build" "pending", mkTask 2 "Test" "pending"]
            []))).taskList.tasks
      = [mkTask 1 "Build" "blocked", mkTask 2 "Test" "pending"] ∧
    (App.onTaskList
        (fun ls =>
          (TaskList.handleAddDependency
            (servingBackend [mkTask 1 "Build" "blocked", mkTask 2 "Test" "pending"]
              [{ id := 1, task := 1, depends_on := 2 }]) 1 (.num 2) ls).1)
        (App.mount
          (servingBackend [mkTask 1 "Build" "pending", mkTask 2 "Test" "pending"]
            []))).graph
      = { tasks := [mkTask 1 "Build" "pending", mkTask 2 "Test" "pending"]
          dependencies := []
          loading := false
          selectedNode := none } ∧
    (App.refreshClicked
        (servingBackend [mkTask 1 "Build" "blocked", mkTask 2 "Test" "pending"]
          [{ id := 1, task := 1, depends_on := 2 }])
        (App.mount
          (servingBackend [mkTask 1 "Build" "pending", mkTask 2 "Test" "pending"]
            []))).graph.dependencies
      = [{ id := 1, task := 1, depends_on := 2 }] :=
  ⟨rfl, rfl, rfl, rfl, rfl, rfl, rfl⟩

/-- C14: in a graph whose first task has id 0, clicking the node of that task sets
`selectedNode` to 0 and no details panel is displayed, while clicking the node of
task 1 displays its title and status. -/
theorem clicking_node_zero_shows_no_details :
    (GraphVisualization.nodeClicked (mkTask 0 "Root" "in_progress")
        { tasks := [mkTask 0 "Root" "in_progress", mkTask 1 "Leaf" "pending"]
          dependencies := []
          loading := false
          selectedNode := none }).selectedNode = some 0 ∧
    GraphVisualization.detailsPanel
        (GraphVisualization.nodeClicked (mkTask 0 "Root" "in_progress")
          { tasks := [mkTask 0 "Root" "in_progress", mkTask 1 "Leaf" "pending"]
            dependencies := []
            loading := false
            selectedNode := none }) = none ∧
    (GraphVisualization.detailsPanel
        (GraphVisualization.nodeClicked (mkTask 1 "Leaf" "pending")
          { tasks := [mkTask 0 "Root" "in_progress", mkTask 1 "Leaf" "pending"]
            dependencies := []
            loading := false
            selectedNode := none })).map (fun p => (p.title, p.status))
      = some ("Leaf", "pending") := by
  decide

/-- C15: a successful `handleTaskUpdate` resolves and leaves a task list of the same
length in which, position by position, a task whose id is `taskId` is replaced by the
task the server returned and any other task is unchanged; a failed one leaves the
state unchanged and rethrows the error. -/
theorem handleTaskUpdate_replaces_matching (api : Backend) (s : TaskList.State)
    (taskId : Int) (updateData : JsVal) :
    (∀ data, api.update taskId updateData = .ok data →
      (TaskList.handleTaskUpdate api taskId updateData s).2 = .ok () ∧
      (TaskList.handleTaskUpdate api taskId updateData s).1.tasks.length = s.tasks.length ∧
      (∀ i : Nat, (TaskList.handleTaskUpdate api taskId updateData s).1.tasks[i]?
        = s.tasks[i]?.map (fun t => if t.id = taskId then data else t)) ∧
      { (TaskList.handleTaskUpdate api taskId updateData s).1 with tasks := s.tasks } = s) ∧
    (∀ e, api.update taskId updateData = .error e →
      TaskList.handleTaskUpdate api taskId updateData s = (s, .error e)) := by
  constructor
  · intro data hok
    have hstate : TaskList.handleTaskUpdate api taskId updateData s
        = ({ s with tasks := s.tasks.map (fun task => if task.id == taskId then data else task) },
            .ok ()) := by
      simp [TaskList.handleTaskUpdate, hok]
    rw [hstate]
    refine ⟨rfl, by simp, ?_, rfl⟩
    intro i
    simp only [List.getElem?_map]
    cases s.tasks[i]? with
    | none => rfl
    | some t => simp
  · intro e hfail
    simp [TaskList.handleTaskUpdate, hfail]

/-- C15, at concrete inputs: the update of task 6 in the scenario succeeds, and the same
update is rejected by a failing backend. -/
theorem handleTaskUpdate_replaces_matching_witness :
    (TaskList.handleTaskUpdate scenarioBackend 6 (.obj [("status", .str "completed")])
        scenarioTasks).1.tasks.length = 2 ∧
    (TaskList.handleTaskUpdate (rejectingBackend .null) 6
        (.obj [("status", .str "completed")]) scenarioTasks).1.tasks = scenarioTasks.tasks :=
  ⟨((handleTaskUpdate_replaces_matching scenarioBackend scenarioTasks 6
      (.obj [("status", .str "completed")])).1 _ rfl).2.1,
    congrArg (fun r => r.1.tasks)
      ((handleTaskUpdate_replaces_matching (rejectingBackend .null) scenarioTasks 6
        (.obj [("status", .str "completed")])).2 _ rfl)⟩

theorem GraphVisualization.getNodePosition_eq (clientWidth : Option Nat) :
    ∃ n, 3 ≤ n ∧ n ≤ 5 ∧ ∀ index total,
      GraphVisualization.getNodePosition clientWidth index total
        = (100 + index % n * 180, 100 + index / n * 140) := by
  cases clientWidth with
  | none => exact ⟨min 5 (max 3 (800 / 180)), by omega, by omega, fun _ _ => rfl⟩
  | some w =>
    by_cases hw : w = 0
    · subst hw
      exact ⟨min 5 (max 3 (800 / 180)), by omega, by omega, fun _ _ => rfl⟩
    · refine ⟨min 5 (max 3 (w / 180)), by omega, by omega, fun _ _ => ?_⟩
      simp [GraphVisualization.getNodePosition, hw]

theorem GraphVisualization.getNodePosition_injective (clientWidth : Option Nat)
    (i j total total2 : Nat)
    (h : GraphVisualization.getNodePosition clientWidth i total
      = GraphVisualization.getNodePosition clientWidth j total2) : i = j := by
  obtain ⟨n, hn3, -, hpos⟩ := GraphVisualization.getNodePosition_eq clientWidth
  rw [hpos, hpos] at h
  simp only [Prod.mk.injEq] at h
  have hmod : i % n = j % n := by omega
  have hdiv : i / n = j / n := by omega
  calc i = n * (i / n) + i % n := (Nat.div_add_mod i n).symm
    _ = n * (j / n) + j % n := by rw [hmod, hdiv]
    _ = j := Nat.div_add_mod j n

theorem GraphVisualization.distance_of_ne (clientWidth : Option Nat) (i j total : Nat)
    (hij : i ≠ j) :
    (140 : Int) * 140 ≤
      (((GraphVisualization.getNodePosition clientWidth j total).1 : Int)
          - (GraphVisualization.getNodePosition clientWidth i total).1)
        * (((GraphVisualization.getNodePosition clientWidth j total).1 : Int)
          - (GraphVisualization.getNodePosition clientWidth i total).1)
      + (((GraphVisualization.getNodePosition clientWidth j total).2 : Int)
          - (GraphVisualization.getNodePosition clientWidth i total).2)
        * (((GraphVisualization.getNodePosition clientWidth j total).2 : Int)
          - (GraphVisualization.getNodePosition clientWidth i total).2) := by
  obtain ⟨n, hn3, -, hpos⟩ := GraphVisualization.getNodePosition_eq clientWidth
  rw [hpos, hpos]
  have hne : i % n ≠ j % n ∨ i / n ≠ j / n := by
    by_contra hcon
    push_neg at hcon
    apply hij
    calc i = n * (i / n) + i % n := (Nat.div_add_mod i n).symm
      _ = n * (j / n) + j % n := by rw [hcon.1, hcon.2]
      _ = j := Nat.div_add_mod j n
  have hne2 : ((i % n : Nat) : Int) ≠ ((j % n : Nat) : Int) ∨
      ((i / n : Nat) : Int) ≠ ((j / n : Nat) : Int) := by
    rcases hne with h | h
    · left; exact_mod_cast h
    · right; exact_mod_cast h
  simp only [Nat.cast_add, Nat.cast_mul, Nat.cast_ofNat]
  generalize ((i % n : Nat) : Int) = c1 at hne2 ⊢
  generalize ((j % n : Nat) : Int) = c2 at hne2 ⊢
  generalize ((i / n : Nat) : Int) = r1 at hne2 ⊢
  generalize ((j / n : Nat) : Int) = r2 at hne2 ⊢
  rcases hne2 with h | h
  · have hsq : 1 ≤ (c2 - c1) * (c2 - c1) := by
      rcases lt_or_gt_of_ne h with h | h <;> nlinarith
    nlinarith [mul_self_nonneg (r2 - r1)]
  · have hsq : 1 ≤ (r2 - r1) * (r2 - r1) := by
      rcases lt_or_gt_of_ne h with h | h <;> nlinarith
    nlinarith [mul_self_nonneg (c2 - c1)]

theorem findIdx?_id_spec (tasks : List Task) (x : Int) (i : Nat)
    (h : tasks.findIdx? (fun t => t.id == x) = some i) :
    ∃ a, tasks[i]? = some a ∧ a.id = x := by
  have hspec := List.findIdx?_of_eq_some h
  cases ha : tasks[i]? with
  | none => rw [ha] at hspec; simp at hspec
  | some a =>
    rw [ha] at hspec
    exact ⟨a, rfl, by simpa using hspec⟩

theorem findIdx?_id_of_exists (tasks : List Task) (x : Int)
    (h : ∃ t ∈ tasks, t.id = x) :
    ∃ i, tasks.findIdx? (fun t => t.id == x) = some i := by
  obtain ⟨t, ht, hid⟩ := h
  exact ⟨_, List.findIdx?_eq_some_of_exists ⟨t, ht, by simpa using hid⟩⟩

/-- C16: for every container width `getNodePosition` is injective in the index; a
dependency whose endpoints are both found in the task list is rendered, and if its
`task` differs from its `depends_on` the two node positions differ with
`dx * dx + dy * dy >= 140 * 140`, which is more than the square of twice the radius
25; among the rendered edges the radicand is 0 exactly when `task == depends_on`. -/
theorem edge_endpoints_are_apart (clientWidth : Option Nat) :
    (∀ i j total total2 : Nat,
      GraphVisualization.getNodePosition clientWidth i total
        = GraphVisualization.getNodePosition clientWidth j total2 → i = j) ∧
    (∀ (tasks : List Task) (dep : Dependency),
      (∃ t ∈ tasks, t.id = dep.task) → (∃ t ∈ tasks, t.id = dep.depends_on) →
      ∃ g, GraphVisualization.edgeGeometry clientWidth tasks dep = some g ∧
        g.distanceSquared = g.dx * g.dx + g.dy * g.dy ∧
        (dep.task ≠ dep.depends_on →
          g.fromPos ≠ g.toPos ∧ 140 * 140 ≤ g.distanceSquared ∧
          (2 * 25) * (2 * 25) < g.distanceSquared) ∧
        (g.distanceSquared = 0 ↔ dep.task = dep.depends_on)) := by
  refine ⟨fun i j total total2 h =>
    GraphVisualization.getNodePosition_injective clientWidth i j total total2 h, ?_⟩
  intro tasks dep hfrom hto
  obtain ⟨fi, hfi⟩ := findIdx?_id_of_exists tasks dep.task hfrom
  obtain ⟨ti, hti⟩ := findIdx?_id_of_exists tasks dep.depends_on hto
  obtain ⟨a, ha, haid⟩ := findIdx?_id_spec tasks dep.task fi hfi
  obtain ⟨b, hb, hbid⟩ := findIdx?_id_spec tasks dep.depends_on ti hti
  have hapart : dep.task ≠ dep.depends_on → fi ≠ ti := by
    intro hne heq
    rw [heq, hb] at ha
    cases ha
    exact hne (haid.symm.trans hbid)
  have hsame : dep.task = dep.depends_on → fi = ti := by
    intro heq
    have hfi2 := hfi
    rw [heq, hti] at hfi2
    cases hfi2
    rfl
  unfold GraphVisualization.edgeGeometry
  simp only [hfi, hti]
  refine ⟨_, rfl, rfl, ?_, ?_⟩
  · intro hne
    have hd := GraphVisualization.distance_of_ne clientWidth fi ti tasks.length (hapart hne)
    refine ⟨?_, hd, lt_of_lt_of_le (by norm_num) hd⟩
    intro hpos
    exact hapart hne
      (GraphVisualization.getNodePosition_injective clientWidth fi ti tasks.length
        tasks.length hpos)
  · constructor
    · intro hzero
      by_contra hne
      have hd := GraphVisualization.distance_of_ne clientWidth fi ti tasks.length
        (hapart hne)
      have hzero2 : (((GraphVisualization.getNodePosition clientWidth ti tasks.length).1 : Int)
          - (GraphVisualization.getNodePosition clientWidth fi tasks.length).1)
        * (((GraphVisualization.getNodePosition clientWidth ti tasks.length).1 : Int)
          - (GraphVisualization.getNodePosition clientWidth fi tasks.length).1)
        + (((GraphVisualization.getNodePosition clientWidth ti tasks.length).2 : Int)
          - (GraphVisualization.getNodePosition clientWidth fi tasks.length).2)
        * (((GraphVisualization.getNodePosition clientWidth ti tasks.length).2 : Int)
          - (GraphVisualization.getNodePosition clientWidth fi tasks.length).2) = 0 := hzero
      omega
    · intro heq
      have hidx := hsame heq
      subst hidx
      show _ * _ + _ * _ = (0 : Int)
      simp

/-- C16, at a concrete input: a container 800 wide, the tasks 1 and 2 and the
dependency of task 1 on task 2. -/
theorem edge_endpoints_are_apart_witness :
    ∃ g, GraphVisualization.edgeGeometry (some 800)
          [mkTask 1 "Build" "pending", mkTask 2 "Test" "pending"]
          { id := 10, task := 1, depends_on := 2 } = some g ∧
      g.distanceSquared = g.dx * g.dx + g.dy * g.dy := by
  obtain ⟨g, h1, h2, -, -⟩ :=
    (edge_endpoints_are_apart (some 800)).2
      [mkTask 1 "Build" "pending", mkTask 2 "Test" "pending"]
      { id := 10, task := 1, depends_on := 2 }
      ⟨mkTask 1 "Build" "pending", by decide, rfl⟩
      ⟨mkTask 2 "Test" "pending", by decide, rfl⟩
  exact ⟨g, h1, h2⟩

end TaskManagement
